import Mathlib

/-
Verification of the bill-management VLM orchestration layer.

The Python source is shallowly embedded: strings become `List Char`,
Python dicts of JSON data become an inductive `JsonVal`, fallible code
returns `Except`/`Option`, and JSON numbers (Python floats on the decimal
literals occurring here) are modelled as rationals.  Wall-clock durations
are threaded as explicit parameters.  All definitions are computable.
-/
/-! ## Python string primitives (`str.find`, `str.rfind`, slicing, `strip`, `in`) -/
/-- Whitespace recognised by Python's JSON parser. -/
def isJsonWs (c : Char) : Bool :=
  c = ' ' || c = '\t' || c = '\n' || c = '\r'

/-- Whitespace recognised by Python's `str.strip()`. -/
def isStrWs (c : Char) : Bool :=
  c = ' ' || c = '\t' || c = '\n' || c = '\r' || c = '\x0b' || c = '\x0c'

/-- Scan for the first index at or after `i` where `pat` begins in the list. -/
def firstOccAux (pat : List Char) : List Char → Nat → Option Nat
  | [], i => if pat.isEmpty then some i else none
  | c :: t, i => if pat.isPrefixOf (c :: t) then some i else firstOccAux pat t (i + 1)

def firstOcc (l pat : List Char) : Option Nat := firstOccAux pat l 0

/-- Python's substring containment test (the `in` operator on `str`). -/
def pyIn (pat l : List Char) : Bool := (firstOcc l pat).isSome

/-- Python's `str.find`: first occurrence index, `-1` when absent. -/
def pyFind (l pat : List Char) : Int :=
  match firstOcc l pat with
  | some n => (n : Int)
  | none => -1

/-- Python's `str.find(pat, start)`. -/
def pyFindFrom (l pat : List Char) (start : Nat) : Int :=
  match firstOcc (l.drop start) pat with
  | some n => ((n + start : Nat) : Int)
  | none => -1

/-- Scan remembering the last index where `pat` begins. -/
def lastOccAux (pat : List Char) : List Char → Nat → Option Nat → Option Nat
  | [], _, acc => acc
  | c :: t, i, acc => lastOccAux pat t (i + 1) (if pat.isPrefixOf (c :: t) then some i else acc)

def lastOcc (l pat : List Char) : Option Nat := lastOccAux pat l 0 none

/-- Python's `str.rfind`: last occurrence index, `-1` when absent. -/
def pyRfind (l pat : List Char) : Int :=
  match lastOcc l pat with
  | some n => (n : Int)
  | none => -1

/-- Normalise one Python slice endpoint against length `n`. -/
def pyIdx (n : Nat) (i : Int) : Nat :=
  if i < 0 then (if (n : Int) + i < 0 then 0 else ((n : Int) + i).toNat)
  else min i.toNat n

/-- Python's `s[a:b]` on strings (step 1, possibly negative endpoints). -/
def pySlice (l : List Char) (a b : Int) : List Char :=
  (l.take (pyIdx l.length b)).drop (pyIdx l.length a)

/-- Python's `str.strip()`. -/
def pyStrip (l : List Char) : List Char :=
  ((l.dropWhile isStrWs).reverse.dropWhile isStrWs).reverse

/-- The generic code-fence marker searched for by the extractor. -/
def fence3 : List Char := ("```").data

/-- The json-tagged code-fence marker searched for by the extractor. -/
def fenceJson : List Char := ("```json").data

/-- Newline followed by a closing fence: the tail of a fenced block. -/
def tailFence : List Char := ("\n```").data

def lbrace : List Char := ("\x7b").data

def rbrace : List Char := ("\x7d").data

/-! ## JSON values and a model of Python's `json.loads`

`json.loads` is the standard-library collaborator used by
`extract_json_from_response`; it is modelled here as a recursive-descent
parser for the JSON fragment exercised by this repository (no `\uXXXX`
escapes, no `NaN`/`Infinity`).  Numbers are modelled as rationals. -/
inductive JsonVal where
  | null : JsonVal
  | bool (b : Bool) : JsonVal
  | num (q : ℚ) : JsonVal
  | str (s : List Char) : JsonVal
  | arr (elems : List JsonVal) : JsonVal
  | obj (members : List (List Char × JsonVal)) : JsonVal

def skipJsonWs (l : List Char) : List Char := l.dropWhile isJsonWs

/-- Parse the body of a JSON string literal (opening quote already consumed). -/
def parseJString : List Char → Option (List Char × List Char)
  | [] => none
  | c :: t =>
    if c = '"' then some ([], t)
    else if c = '\\' then
      match t with
      | [] => none
      | e :: t2 =>
        let esc : Option Char :=
          if e = '"' then some '"'
          else if e = '\\' then some '\\'
          else if e = '/' then some '/'
          else if e = 'n' then some '\n'
          else if e = 't' then some '\t'
          else if e = 'r' then some '\r'
          else if e = 'b' then some '\x08'
          else if e = 'f' then some '\x0c'
          else none
        match esc with
        | some ch =>
          match parseJString t2 with
          | some (s, rest) => some (ch :: s, rest)
          | none => none
        | none => none
    else if c.toNat < 32 then none
    else
      match parseJString t with
      | some (s, rest) => some (c :: s, rest)
      | none => none

def digitsToNat (ds : List Char) : Nat :=
  ds.foldl (fun a c => a * 10 + (c.toNat - 48)) 0

/-- Assemble a decimal number `±mant / 10^scale * 10^expo` as a rational.
Only `mkRat` and integer arithmetic are used, so concrete values reduce. -/
def decimalToRat (neg : Bool) (mant : Nat) (scale : Nat) (expo : Int) : ℚ :=
  let m : Int := if neg then -(mant : Int) else (mant : Int)
  let e : Int := expo - (scale : Int)
  if 0 ≤ e then mkRat (m * (10 : Int) ^ e.toNat) 1
  else mkRat m ((10 : Nat) ^ (-e).toNat)

/-- Parse the exponent part of a JSON number (after the `e`/`E`). -/
def parseJExpo (r : List Char) : Option (Int × List Char) :=
  let signed : Bool × List Char :=
    match r with
    | '-' :: r2 => (true, r2)
    | '+' :: r2 => (false, r2)
    | _ => (false, r)
  let eds := signed.2.takeWhile Char.isDigit
  if eds.isEmpty then none
  else
    some (if signed.1 then -(digitsToNat eds : Int) else (digitsToNat eds : Int),
          signed.2.dropWhile Char.isDigit)

/-- Parse a JSON number literal (sign, integer part, optional fraction and exponent). -/
def parseJNumber (l : List Char) : Option (ℚ × List Char) :=
  let signed : Bool × List Char :=
    match l with
    | c :: t => if c = '-' then (true, t) else (false, l)
    | [] => (false, [])
  let neg := signed.1
  match signed.2 with
  | [] => none
  | c :: t =>
    let intRes : Option (Nat × List Char) :=
      if c = '0' then some (0, t)
      else if c.isDigit then
        some (digitsToNat ((c :: t).takeWhile Char.isDigit),
              (c :: t).dropWhile Char.isDigit)
      else none
    match intRes with
    | none => none
    | some (ip, r1) =>
      let fracRes : Option (Nat × Nat × List Char) :=
        match r1 with
        | '.' :: r2 =>
          let fds := r2.takeWhile Char.isDigit
          if fds.isEmpty then none
          else some (ip * 10 ^ fds.length + digitsToNat fds, fds.length,
                     r2.dropWhile Char.isDigit)
        | _ => some (ip, 0, r1)
      match fracRes with
      | none => none
      | some (mant, scale, r3) =>
        match r3 with
        | 'e' :: r4 =>
          match parseJExpo r4 with
          | some (ex, r5) => some (decimalToRat neg mant scale ex, r5)
          | none => none
        | 'E' :: r4 =>
          match parseJExpo r4 with
          | some (ex, r5) => some (decimalToRat neg mant scale ex, r5)
          | none => none
        | _ => some (decimalToRat neg mant scale 0, r3)

mutual

def parseJValue : Nat → List Char → Option (JsonVal × List Char)
  | 0, _ => none
  | fuel + 1, l =>
    match l with
    | [] => none
    | c :: t =>
      if c = '"' then (parseJString t).map (fun p => (JsonVal.str p.1, p.2))
      else if c = '-' || c.isDigit then (parseJNumber l).map (fun p => (JsonVal.num p.1, p.2))
      else if c = 'n' then
        if ("null".data).isPrefixOf l then some (JsonVal.null, l.drop 4) else none
      else if c = 't' then
        if ("true".data).isPrefixOf l then some (JsonVal.bool true, l.drop 4) else none
      else if c = 'f' then
        if ("false".data).isPrefixOf l then some (JsonVal.bool false, l.drop 5) else none
      else if c = '[' then
        match skipJsonWs t with
        | ']' :: r => some (JsonVal.arr [], r)
        | t1 => (parseJElems fuel t1).map (fun p => (JsonVal.arr p.1, p.2))
      else if c = '\x7b' then
        match skipJsonWs t with
        | '\x7d' :: r => some (JsonVal.obj [], r)
        | t1 => (parseJMembers fuel t1).map (fun p => (JsonVal.obj p.1, p.2))
      else none

def parseJElems : Nat → List Char → Option (List JsonVal × List Char)
  | 0, _ => none
  | fuel + 1, l =>
    match parseJValue fuel l with
    | none => none
    | some (v, rest) =>
      match skipJsonWs rest with
      | ',' :: r2 => (parseJElems fuel (skipJsonWs r2)).map (fun p => (v :: p.1, p.2))
      | ']' :: r2 => some ([v], r2)
      | _ => none

def parseJMembers : Nat → List Char → Option (List (List Char × JsonVal) × List Char)
  | 0, _ => none
  | fuel + 1, l =>
    match l with
    | '"' :: t =>
      match parseJString t with
      | none => none
      | some (k, rest) =>
        match skipJsonWs rest with
        | ':' :: r2 =>
          match parseJValue fuel (skipJsonWs r2) with
          | none => none
          | some (v, r3) =>
            match skipJsonWs r3 with
            | ',' :: r4 =>
              (parseJMembers fuel (skipJsonWs r4)).map (fun p => ((k, v) :: p.1, p.2))
            | '\x7d' :: r4 => some ([(k, v)], r4)
            | _ => none
        | _ => none
    | _ => none

end

/-- Model of Python's `json.loads`: parse one document, allowing surrounding
whitespace, rejecting trailing content. -/
def json_loads (l : List Char) : Option JsonVal :=
  match parseJValue (l.length + 1) (skipJsonWs l) with
  | some (v, rest) => if (skipJsonWs rest).isEmpty then some v else none
  | none => none

/-! ## `extract_json_from_response` (src/src/utils/vlm_provider.py, lines 318-350)

Python failure values: `json.loads` raises `json.JSONDecodeError` (a
`ValueError` subclass) carrying the document it failed on; the final
branch raises a bare `ValueError` with a fixed message.  Both are modelled
by `PyJsonErr`; `Except.error` marks the exception propagating out. -/
inductive PyJsonErr where
  | jsonDecodeError (doc : List Char) : PyJsonErr
  | valueError (msg : List Char) : PyJsonErr
deriving DecidableEq

def noJsonMsg : List Char := ("No valid JSON found in response").data

def extract_json_from_response (response : List Char) : Except PyJsonErr JsonVal :=
  match json_loads response with
  | some v => Except.ok v
  | none =>
    if pyIn fenceJson response then
      let s : Int := pyFind response fenceJson + 7
      let e : Int := pyFindFrom response fence3 s.toNat
      let json_str := pyStrip (pySlice response s e)
      match json_loads json_str with
      | some v => Except.ok v
      | none => Except.error (PyJsonErr.jsonDecodeError json_str)
    else if pyIn fence3 response then
      let s : Int := pyFind response fence3 + 3
      let e : Int := pyFindFrom response fence3 s.toNat
      let json_str := pyStrip (pySlice response s e)
      match json_loads json_str with
      | some v => Except.ok v
      | none => Except.error (PyJsonErr.jsonDecodeError json_str)
    else
      let s : Int := pyFind response lbrace
      let e : Int := pyRfind response rbrace + 1
      if s ≠ -1 ∧ e > s then
        let json_str := pySlice response s e
        match json_loads json_str with
        | some v => Except.ok v
        | none => Except.error (PyJsonErr.jsonDecodeError json_str)
      else Except.error (PyJsonErr.valueError noJsonMsg)

/-- A document wrapped in a json-tagged fence, as produced by VLM markdown replies. -/
def wrapTaggedFence (d : List Char) : List Char :=
  ("```json\n").data ++ (d ++ tailFence)

/-- A document wrapped in a generic fence. -/
def wrapGenericFence (d : List Char) : List Char :=
  ("```\n").data ++ (d ++ tailFence)

/-! ## ModelManager fallback (src/src/utils/vlm_provider.py, lines 200-315)

One provider invocation either returns the model reply or raises; this is an
`Except` value.  `fallbackOutcome = none` models `self.fallback is None`.
The returned Python dicts have optional keys, modelled as `Option` fields;
a `none` field means the key is absent from the dict.  Elapsed wall-clock
times are passed in as parameters (`t1`: measured after a primary success,
`t2`: measured after the fallback path finishes). -/
structure PyCallResult where
  success : Bool
  response : Option (List Char)
  error : Option (List Char)
  model_used : Option (List Char)
  fallback_used : Option Bool
  primary_error : Option (List Char)
  processing_time : ℚ

/-- The error message built when both vision calls fail. -/
def bothFailedMsgVision (pm fm e1 e2 : List Char) : List Char :=
  ("Both models failed.\nPrimary (").data ++ (pm ++ ((("): ").data) ++
    (e1 ++ ((("\nFallback (").data) ++ (fm ++ ((("): ").data) ++ e2))))))

/-- The error message built when both text calls fail. -/
def bothFailedMsgText (e1 e2 : List Char) : List Char :=
  ("Both failed. Primary: ").data ++ (e1 ++ ((". Fallback: ").data ++ e2))

def analyze_image_with_fallback (primaryModelName fallbackModelName : List Char)
    (primaryOutcome : Except (List Char) (List Char))
    (fallbackOutcome : Option (Except (List Char) (List Char)))
    (t1 t2 : ℚ) : PyCallResult :=
  match primaryOutcome with
  | Except.ok response =>
      { success := true, response := some response, error := none,
        model_used := some primaryModelName, fallback_used := some false,
        primary_error := none, processing_time := t1 }
  | Except.error primary_error =>
    match fallbackOutcome with
    | some (Except.ok response) =>
        { success := true, response := some response, error := none,
          model_used := some fallbackModelName, fallback_used := some true,
          primary_error := some primary_error, processing_time := t2 }
    | some (Except.error fallback_error) =>
        { success := false, response := none,
          error := some (bothFailedMsgVision primaryModelName fallbackModelName
            primary_error fallback_error),
          model_used := none, fallback_used := some true, primary_error := none,
          processing_time := t2 }
    | none =>
        { success := false, response := none, error := some primary_error,
          model_used := none, fallback_used := some false, primary_error := none,
          processing_time := t2 }

def generate_text_with_fallback (primaryModelName fallbackModelName : List Char)
    (primaryOutcome : Except (List Char) (List Char))
    (fallbackOutcome : Option (Except (List Char) (List Char)))
    (t1 t2 : ℚ) : PyCallResult :=
  match primaryOutcome with
  | Except.ok response =>
      { success := true, response := some response, error := none,
        model_used := some primaryModelName, fallback_used := some false,
        primary_error := none, processing_time := t1 }
  | Except.error primary_error =>
    match fallbackOutcome with
    | some (Except.ok response) =>
        { success := true, response := some response, error := none,
          model_used := some fallbackModelName, fallback_used := some true,
          primary_error := none, processing_time := t2 }
    | some (Except.error fallback_error) =>
        { success := false, response := none,
          error := some (bothFailedMsgText primary_error fallback_error),
          model_used := none, fallback_used := none, primary_error := none,
          processing_time := t2 }
    | none =>
        { success := false, response := none, error := some primary_error,
          model_used := none, fallback_used := none, primary_error := none,
          processing_time := t2 }

/-! ## Configuration constants (src/src/config/model_config.py) -/
def MIN_CONFIDENCE_SCORE : ℚ := mkRat 1 2

def EXPENSE_CATEGORIES : List (List Char) :=
  [("groceries").data, ("dining").data, ("utilities").data,
   ("shopping").data, ("entertainment").data, ("uncategorized").data]

/-! ## Python dynamic-dict operations used by the coordinator

Python raises on ill-typed dynamic operations (`AttributeError` on `.get` of
a non-dict, `TypeError` on `len`/comparisons, `ValueError` on bad `float()`),
and `BillProcessor.process_bill` only sees those through its top-level
catch-all.  They are modelled as `Except` with a message. -/
def dictLookupLast (ms : List (List Char × JsonVal)) (key : List Char) : Option JsonVal :=
  ms.foldl (fun acc kv => if kv.1 = key then some kv.2 else acc) none

/-- Python `d.get(key, default)`: on a dict, the stored value or the default;
on anything else an `AttributeError`. -/
def pyGet (v : JsonVal) (key : List Char) (dflt : JsonVal) : Except (List Char) JsonVal :=
  match v with
  | JsonVal.obj ms => Except.ok ((dictLookupLast ms key).getD dflt)
  | _ => Except.error (("AttributeError: get").data)

/-- Python `float(x)` on a JSON-derived value. -/
def pyFloat (v : JsonVal) : Except (List Char) ℚ :=
  match v with
  | JsonVal.num q => Except.ok q
  | JsonVal.bool b => Except.ok (if b then 1 else 0)
  | JsonVal.str s =>
    match parseJNumber (pyStrip s) with
    | some (q, rest) =>
        if rest.isEmpty then Except.ok q
        else Except.error (("ValueError: float").data)
    | none => Except.error (("ValueError: float").data)
  | _ => Except.error (("TypeError: float").data)

/-- Python `x < q` between a JSON-derived value and a float. -/
def pyLtFloat (v : JsonVal) (q : ℚ) : Except (List Char) Bool :=
  match v with
  | JsonVal.num x => Except.ok (decide (x < q))
  | JsonVal.bool b => Except.ok (decide ((if b then (1 : ℚ) else 0) < q))
  | _ => Except.error (("TypeError: comparison").data)

/-- Python `len(x)` on a JSON-derived value. -/
def pyLen (v : JsonVal) : Except (List Char) Nat :=
  match v with
  | JsonVal.str s => Except.ok s.length
  | JsonVal.arr xs => Except.ok xs.length
  | JsonVal.obj ms => Except.ok ms.length
  | _ => Except.error (("TypeError: len").data)

/-- Python truthiness of a JSON-derived value. -/
def pyTruthy (v : JsonVal) : Bool :=
  match v with
  | JsonVal.null => false
  | JsonVal.bool b => b
  | JsonVal.num q => decide (q ≠ 0)
  | JsonVal.str s => !s.isEmpty
  | JsonVal.arr xs => !xs.isEmpty
  | JsonVal.obj ms => !ms.isEmpty

/-! ## BillProcessor (src/bill_processor.py)

The coordinator's collaborators are injected: the two ModelManager call
results, the image-prep outcome, the identifier assigned by the database,
and the two timestamps read from the clock are parameters.  Returned Python
dicts again become structures with `Option` fields for optional keys; the
pair's second component records the database calls issued during the run. -/
/-- A dict returned by one of the two VLM stage helpers. -/
structure StageResult where
  success : Bool
  data : Option JsonVal
  error : Option (List Char)
  model_used : Option (List Char)
  fallback_used : Option Bool
  processing_time : Option ℚ
  raw_response : Option (List Char)

/-- Fixed abstraction of `str(e)` for a `json.JSONDecodeError`. -/
def jsonDecodeErrStr : List Char := ("Expecting value").data

def extract_bill_data_with_vlm (result : PyCallResult) :
    Except (List Char) StageResult :=
  if result.success = false then
    Except.ok { success := result.success, data := none, error := result.error,
                model_used := result.model_used, fallback_used := result.fallback_used,
                processing_time := some result.processing_time, raw_response := none }
  else
    match result.response, result.model_used, result.fallback_used with
    | some resp, some mu, some fb =>
      match extract_json_from_response resp with
      | Except.ok bill_data =>
          Except.ok { success := true, data := some bill_data, error := none,
                      model_used := some mu, fallback_used := some fb,
                      processing_time := some result.processing_time,
                      raw_response := none }
      | Except.error (PyJsonErr.jsonDecodeError _) =>
          Except.ok { success := false, data := none,
                      error := some ((("Failed to parse VLM response: ").data)
                        ++ jsonDecodeErrStr),
                      model_used := none, fallback_used := none,
                      processing_time := none, raw_response := some resp }
      | Except.error (PyJsonErr.valueError msg) => Except.error msg
    | _, _, _ => Except.error (("KeyError").data)

def generate_summary_with_vlm (bill_data : JsonVal) (result : PyCallResult) :
    Except (List Char) StageResult := do
  _ ← pyGet bill_data (("line_items").data) (JsonVal.arr [])
  if result.success = false then
    return { success := result.success, data := none, error := result.error,
             model_used := result.model_used, fallback_used := result.fallback_used,
             processing_time := some result.processing_time, raw_response := none }
  else
    match result.response with
    | some resp =>
      match extract_json_from_response resp with
      | Except.ok summary_data =>
          return { success := true, data := some summary_data, error := none,
                   model_used := none, fallback_used := none,
                   processing_time := some result.processing_time,
                   raw_response := none }
      | Except.error (PyJsonErr.jsonDecodeError _) =>
          return { success := false, data := none,
                   error := some ((("Failed to parse summary: ").data)
                     ++ jsonDecodeErrStr),
                   model_used := none, fallback_used := none,
                   processing_time := none, raw_response := some resp }
      | Except.error (PyJsonErr.valueError msg) => Except.error msg
    | none => Except.error (("KeyError").data)

/-- The processing metadata dict assembled in step 5 of `process_bill`. -/
structure ProcessingMetadata where
  model_used : Option (List Char)
  fallback_used : Bool
  processing_time : ℚ
  bill_id : Option Nat

/-- One row inserted by `DatabaseManager.save_expenses`. -/
structure ExpenseRow where
  item_description : JsonVal
  amount : JsonVal
  category : JsonVal
  confidence_score : JsonVal

/-- A database call issued during a run. -/
inductive DbEffect where
  | saveBill (merchant_name bill_date : JsonVal) (total_amount : ℚ)
      (image_path : List Char) (quality_score confidence_score : ℚ)
      (model_used : Option (List Char)) (fallback_used : Bool)
      (processing_time : ℚ) : DbEffect
  | saveExpenses (bill_id : Nat) (rows : List ExpenseRow) : DbEffect

/-- One expense dict turned into the row stored by `save_expenses`;
a missing key falls back to the hard-coded default, and a present value is
stored unchanged. -/
def save_expenses_row (e : JsonVal) : Except (List Char) ExpenseRow := do
  let desc ← pyGet e (("description").data) (JsonVal.str [])
  let amount ← pyGet e (("amount").data) (JsonVal.num 0)
  let category ← pyGet e (("category").data) (JsonVal.str (("uncategorized").data))
  let conf ← pyGet e (("confidence").data) (JsonVal.num 0)
  return { item_description := desc, amount := amount, category := category,
           confidence_score := conf }

def save_to_database (bill_data : JsonVal) (image_path : List Char)
    (metadata : ProcessingMetadata) (dbId : Nat) (nowDate : List Char) :
    Except (List Char) (Nat × List DbEffect) := do
  let qa ← pyGet bill_data (("quality_assessment").data) (JsonVal.obj [])
  let merchant ← pyGet bill_data (("merchant_name").data) (JsonVal.str (("Unknown").data))
  let bdate ← pyGet bill_data (("bill_date").data) (JsonVal.str nowDate)
  let totalv ← pyGet bill_data (("total_amount").data) (JsonVal.num 0)
  let total ← pyFloat totalv
  let qsv ← pyGet qa (("confidence_score").data) (JsonVal.num 0)
  let qs ← pyFloat qsv
  let billEff := DbEffect.saveBill merchant bdate total image_path qs qs
    metadata.model_used metadata.fallback_used metadata.processing_time
  let expenses ← pyGet bill_data (("line_items").data) (JsonVal.arr [])
  if pyTruthy expenses then
    match expenses with
    | JsonVal.arr xs => do
      let rows ← xs.mapM save_expenses_row
      return (dbId, [billEff, DbEffect.saveExpenses dbId rows])
    | _ => Except.error (("AttributeError: expense rows").data)
  else
    return (dbId, [billEff])

/-! ## create_final_output (src/src/utils/json_formatter.py, lines 11-58) -/
structure BillMetadataOut where
  bill_id : Option Nat
  merchant_name : JsonVal
  bill_date : JsonVal
  processing_timestamp : List Char
  image_quality : JsonVal
  overall_confidence : JsonVal
  model_used : Option (List Char)
  fallback_used : Bool

structure MetadataOut where
  processing_time_seconds : ℚ
  model_used : Option (List Char)
  fallback_used : Bool
  total_items : Nat

structure FinalOutput where
  bill_metadata : BillMetadataOut
  expenses : JsonVal
  summary : JsonVal
  insights : JsonVal
  quality_metrics : JsonVal
  metadata : MetadataOut

def create_final_output (bill_data summary_data : JsonVal)
    (metadata : ProcessingMetadata) (now : List Char) :
    Except (List Char) FinalOutput := do
  let merchant ← pyGet bill_data (("merchant_name").data) (JsonVal.str (("Unknown").data))
  let bdate ← pyGet bill_data (("bill_date").data) (JsonVal.str (("Unknown").data))
  let qa ← pyGet bill_data (("quality_assessment").data) (JsonVal.obj [])
  let image_quality ← pyGet qa (("overall_quality").data) (JsonVal.str (("unknown").data))
  let overall_confidence ← pyGet qa (("confidence_score").data) (JsonVal.num 0)
  let line_items ← pyGet bill_data (("line_items").data) (JsonVal.arr [])
  let summary ← pyGet summary_data (("summary").data) (JsonVal.obj [])
  let insights ← pyGet summary_data (("insights").data) (JsonVal.obj [])
  let qm ← pyGet summary_data (("quality_metrics").data) (JsonVal.obj [])
  let qmMerged ← (match qm with
    | JsonVal.obj ms =>
        Except.ok (JsonVal.obj (ms ++ [((("image_quality_assessment").data), qa)]))
    | _ => Except.error (("TypeError: mapping unpacking").data))
  let total_items ← pyLen line_items
  return { bill_metadata :=
             { bill_id := metadata.bill_id, merchant_name := merchant,
               bill_date := bdate, processing_timestamp := now,
               image_quality := image_quality,
               overall_confidence := overall_confidence,
               model_used := metadata.model_used,
               fallback_used := metadata.fallback_used },
           expenses := line_items, summary := summary, insights := insights,
           quality_metrics := qmMerged,
           metadata :=
             { processing_time_seconds := metadata.processing_time,
               model_used := metadata.model_used,
               fallback_used := metadata.fallback_used,
               total_items := total_items } }

/-! ## process_bill (src/bill_processor.py, lines 24-107) -/
/-- The dict returned by `process_bill`. -/
structure ProcessOutcome where
  success : Bool
  data : Option FinalOutput
  bill_id : Option Nat
  error : Option (List Char)
  quality_score : Option JsonVal
  stage : Option (List Char)
  details : Option JsonVal

def failOutcome (err : Option (List Char)) (stage : List Char) : ProcessOutcome :=
  { success := false, data := none, bill_id := none, error := err,
    quality_score := none, stage := some stage, details := none }

/-- Steps 4-7 of `process_bill` (summary call, metadata assembly, persistence,
final output), reached only once the quality gate has passed.  `er` is the
dict returned by the extraction stage. -/
def process_bill_after_gate (bill_data : JsonVal) (summaryCall : PyCallResult)
    (er : StageResult) (image_path : List Char) (dbId : Nat)
    (nowDate now : List Char) :
    Except (List Char) (ProcessOutcome × List DbEffect) := do
  let sr ← generate_summary_with_vlm bill_data summaryCall
  if sr.success = false then
    return (failOutcome sr.error (("summary_generation").data), [])
  else
    match sr.data with
    | none => Except.error (("KeyError: data").data)
    | some summary_data => do
      let saved ← save_to_database bill_data image_path
        { model_used := er.model_used,
          fallback_used := er.fallback_used.getD false,
          processing_time := er.processing_time.getD 0 + sr.processing_time.getD 0,
          bill_id := none } dbId nowDate
      match create_final_output bill_data summary_data
        { model_used := er.model_used,
          fallback_used := er.fallback_used.getD false,
          processing_time := er.processing_time.getD 0 + sr.processing_time.getD 0,
          bill_id := some saved.1 } now with
      | Except.error msg =>
          -- the database calls already happened when this raises, so
          -- the catch-all outcome keeps the recorded effects
          return (failOutcome (some ((("Processing failed: ").data) ++ msg))
            (("unknown").data), saved.2)
      | Except.ok fo =>
          return ({ success := true, data := some fo, bill_id := some saved.1,
                    error := none, quality_score := none, stage := none,
                    details := none }, saved.2)

def process_bill (minConf : ℚ) (prep : Except (List Char) Unit)
    (extractionCall summaryCall : PyCallResult)
    (image_path : List Char) (dbId : Nat) (nowDate now : List Char) :
    ProcessOutcome × List DbEffect :=
  let body : Except (List Char) (ProcessOutcome × List DbEffect) := do
    _ ← prep
    let er ← extract_bill_data_with_vlm extractionCall
    if er.success = false then
      return (failOutcome er.error (("vlm_extraction").data), [])
    else
      match er.data with
      | none => Except.error (("KeyError: data").data)
      | some bill_data => do
        let qa ← pyGet bill_data (("quality_assessment").data) (JsonVal.obj [])
        let quality_score ← pyGet qa (("confidence_score").data) (JsonVal.num 0)
        let lt ← pyLtFloat quality_score minConf
        if lt then
          return ({ success := false, data := none, bill_id := none,
                    error := some (("Image quality too low. Please upload a clearer image.").data),
                    quality_score := some quality_score,
                    stage := some (("quality_check").data),
                    details := some qa }, [])
        else
          process_bill_after_gate bill_data summaryCall er image_path dbId nowDate now
  match body with
  | Except.ok r => r
  | Except.error msg =>
      (failOutcome (some ((("Processing failed: ").data) ++ msg)) (("unknown").data), [])

def respHalf : List Char :=
  ("\x7b\"quality_assessment\": \x7b\"confidence_score\": 0.5\x7d\x7d").data

def respLow : List Char :=
  ("\x7b\"quality_assessment\": \x7b\"confidence_score\": 0.3\x7d\x7d").data

def respGood : List Char :=
  ("\x7b\"quality_assessment\": \x7b\"confidence_score\": 0.9\x7d\x7d").data

/-- A successful vision-call dict with the given reply. -/
def sampleCall (resp : List Char) (t : ℚ) : PyCallResult :=
  { success := true, response := some resp, error := none,
    model_used := some (("openrouter_gemini").data), fallback_used := some false,
    primary_error := none, processing_time := t }

def qaHalf : JsonVal :=
  JsonVal.obj [((("confidence_score").data), JsonVal.num (mkRat 5 10))]

def billHalf : JsonVal := JsonVal.obj [((("quality_assessment").data), qaHalf)]

def qaLow : JsonVal :=
  JsonVal.obj [((("confidence_score").data), JsonVal.num (mkRat 3 10))]

def billLow : JsonVal := JsonVal.obj [((("quality_assessment").data), qaLow)]

def respNoQa : List Char := ("\x7b\"merchant_name\": \"Acme\"\x7d").data

def qaGood : JsonVal :=
  JsonVal.obj [((("confidence_score").data), JsonVal.num (mkRat 9 10))]

def billGood : JsonVal := JsonVal.obj [((("quality_assessment").data), qaGood)]

def savedGood : Nat × List DbEffect :=
  (1, [DbEffect.saveBill (JsonVal.str (("Unknown").data)) (JsonVal.str [])
        0 (("b.jpg").data) (mkRat 9 10) (mkRat 9 10)
        (some (("openrouter_gemini").data)) false (1 + 2)])

def foGood : FinalOutput :=
  { bill_metadata :=
      { bill_id := some 1, merchant_name := JsonVal.str (("Unknown").data),
        bill_date := JsonVal.str (("Unknown").data), processing_timestamp := [],
        image_quality := JsonVal.str (("unknown").data),
        overall_confidence := JsonVal.num (mkRat 9 10),
        model_used := some (("openrouter_gemini").data), fallback_used := false },
    expenses := JsonVal.arr [], summary := JsonVal.obj [],
    insights := JsonVal.obj [],
    quality_metrics := JsonVal.obj [((("image_quality_assessment").data), qaGood)],
    metadata :=
      { processing_time_seconds := 1 + 2,
        model_used := some (("openrouter_gemini").data), fallback_used := false,
        total_items := 0 } }

def rowDining : ExpenseRow :=
  { item_description := JsonVal.str [], amount := JsonVal.num 0,
    category := JsonVal.str (("dining").data), confidence_score := JsonVal.num 0 }

def rowDefault : ExpenseRow :=
  { item_description := JsonVal.str [], amount := JsonVal.num 0,
    category := JsonVal.str (("uncategorized").data),
    confidence_score := JsonVal.num 0 }

/-! ## Provider clients and ModelManager construction
(src/src/utils/vlm_provider.py, lines 20-63 and 166-198;
registry from src/src/config/model_config.py) -/
structure ProviderConfig where
  provider : List Char
  model : List Char
  api_key_env : List Char
  base_url : List Char
  supports_vision : Bool

def MODEL_PROVIDERS (name : List Char) : Option ProviderConfig :=
  if name = ("openrouter_gemini").data then
    some { provider := ("openrouter").data, model := ("google/gemini-2.5-flash").data,
           api_key_env := ("OPENROUTER_API_KEY").data,
           base_url := ("https://openrouter.ai/api/v1").data, supports_vision := true }
  else if name = ("groq_llama_scout").data then
    some { provider := ("groq").data,
           model := ("meta-llama/llama-4-scout-17b-16e-instruct").data,
           api_key_env := ("GROQ_API_KEY").data,
           base_url := ("https://api.groq.com/openai/v1").data, supports_vision := true }
  else if name = ("openrouter_llama_vision").data then
    some { provider := ("openrouter").data,
           model := ("meta-llama/llama-3.2-11b-vision-instruct:free").data,
           api_key_env := ("OPENROUTER_API_KEY").data,
           base_url := ("https://openrouter.ai/api/v1").data, supports_vision := true }
  else if name = ("openrouter_qwen").data then
    some { provider := ("openrouter").data,
           model := ("qwen/qwen-2-vl-7b-instruct:free").data,
           api_key_env := ("OPENROUTER_API_KEY").data,
           base_url := ("https://openrouter.ai/api/v1").data, supports_vision := true }
  else none

def DEFAULT_VISION_MODEL : List Char := ("openrouter_gemini").data

def FALLBACK_VISION_MODEL : List Char := ("groq_llama_scout").data

structure VLMClient where
  config : ProviderConfig
  api_key : List Char

/-- `VLMProvider._initialize_client`: reads the credential from the
environment and raises a `ValueError` when it is unset or empty (Python's
`if not api_key`).  The raised message is abbreviated to its lead phrase. -/
def initialize_client (env : List Char → Option (List Char))
    (cfg : ProviderConfig) : Except (List Char) VLMClient :=
  match env cfg.api_key_env with
  | none => Except.error ((("API key not found: ").data) ++ cfg.api_key_env)
  | some key =>
      if key.isEmpty then
        Except.error ((("API key not found: ").data) ++ cfg.api_key_env)
      else Except.ok { config := cfg, api_key := key }

structure ModelManagerState where
  primary_model_name : List Char
  fallback_model_name : Option (List Char)
  primary : VLMClient
  fallback : Option VLMClient

/-- `ModelManager.__init__`: a failure constructing the primary client is
re-raised; a failure constructing the fallback client (including an unknown
registry key) is caught and leaves the manager without a fallback. -/
def ModelManager_init (env : List Char → Option (List Char))
    (primary_model : List Char) (fallback_model : Option (List Char)) :
    Except (List Char) ModelManagerState :=
  match MODEL_PROVIDERS primary_model with
  | none => Except.error (("KeyError").data)
  | some cfg =>
    match initialize_client env cfg with
    | Except.error e => Except.error e
    | Except.ok pc =>
        Except.ok
          { primary_model_name := primary_model,
            fallback_model_name := fallback_model,
            primary := pc,
            fallback :=
              match fallback_model with
              | none => none
              | some fm =>
                match MODEL_PROVIDERS fm with
                | none => none
                | some fcfg =>
                  match initialize_client env fcfg with
                  | Except.error _ => none
                  | Except.ok fc => some fc }

/-! ## Claim C9 -/
/-- An environment with an OpenRouter key but no Groq key. -/
def envNoGroq : List Char → Option (List Char) :=
  fun k => if k = ("OPENROUTER_API_KEY").data then some (("sk-or-test").data) else none

/-! ## Occurrence characterizations for the search primitives -/
theorem firstOccAux_shift (pat l : List Char) (i : Nat) :
    firstOccAux pat l i = (firstOccAux pat l 0).map (· + i) := by
  induction l generalizing i with
  | nil =>
    by_cases h : pat.isEmpty <;> simp [firstOccAux, h]
  | cons c t ih =>
    by_cases h : pat.isPrefixOf (c :: t)
    · simp [firstOccAux, h]
    · simp only [firstOccAux, h, if_false, Bool.false_eq_true]
      rw [ih (i + 1), ih 1, Option.map_map]
      congr 1
      funext x
      simp
      omega

theorem firstOcc_cons (pat c t) :
    firstOcc (c :: t) pat =
      if pat.isPrefixOf (c :: t) then some 0 else (firstOcc t pat).map (· + 1) := by
  by_cases h : pat.isPrefixOf (c :: t) <;>
    simp [firstOcc, firstOccAux, h, firstOccAux_shift pat t 1]

theorem firstOcc_eq_some_iff {pat : List Char} (hp : pat ≠ []) (l : List Char) (n : Nat) :
    firstOcc l pat = some n ↔
      (pat <+: l.drop n ∧ ∀ j, j < n → ¬ pat <+: l.drop j) := by
  induction l generalizing n with
  | nil =>
    have hne : ¬ pat.isEmpty := by simpa [List.isEmpty_iff] using hp
    constructor
    · intro h
      simp [firstOcc, firstOccAux, hne] at h
    · rintro ⟨h1, -⟩
      simp only [List.drop_nil] at h1
      exact absurd (List.prefix_nil.mp h1) hp
  | cons c t ih =>
    rw [firstOcc_cons]
    by_cases h : pat.isPrefixOf (c :: t)
    · have hpre : pat <+: (c :: t) := List.isPrefixOf_iff_prefix.mp h
      simp only [h, if_pos]
      constructor
      · intro hsome
        have hn : n = 0 := by
          cases hsome
          rfl
        subst hn
        exact ⟨by simpa using hpre, by omega⟩
      · rintro ⟨-, hnone⟩
        rcases Nat.eq_zero_or_pos n with h0 | h0
        · simp [h0]
        · exact absurd (by simpa using hpre) (hnone 0 h0)
    · have hpre : ¬ pat <+: (c :: t) := fun hc => h (List.isPrefixOf_iff_prefix.mpr hc)
      simp only [h, if_neg, Bool.false_eq_true, if_false]
      cases n with
      | zero =>
        constructor
        · intro hsome
          rcases Option.map_eq_some'.mp hsome with ⟨m, -, hm⟩
          omega
        · rintro ⟨h1, -⟩
          exact absurd (by simpa using h1) hpre
      | succ m =>
        constructor
        · intro hsome
          rcases Option.map_eq_some'.mp hsome with ⟨k, hk, hkm⟩
          have hkm' : m = k := by omega
          subst hkm'
          rcases (ih m).mp hk with ⟨h1, h2⟩
          refine ⟨by simpa using h1, ?_⟩
          intro j hj
          cases j with
          | zero => simpa using hpre
          | succ j' =>
            have : j' < m := by omega
            simpa using h2 j' this
        · rintro ⟨h1, h2⟩
          have ht : firstOcc t pat = some m := by
            refine (ih m).mpr ⟨by simpa using h1, ?_⟩
            intro j hj
            have := h2 (j + 1) (by omega)
            simpa using this
          simp [ht]

theorem firstOcc_eq_none_iff {pat : List Char} (hp : pat ≠ []) (l : List Char) :
    firstOcc l pat = none ↔ ∀ j, ¬ pat <+: l.drop j := by
  constructor
  · intro h j hj
    have hdec : ∃ i, pat <+: l.drop i := ⟨j, hj⟩
    have hfind := Nat.find_spec hdec
    have hmin := fun m (hm : m < Nat.find hdec) => Nat.find_min hdec hm
    have : firstOcc l pat = some (Nat.find hdec) :=
      (firstOcc_eq_some_iff hp l _).mpr ⟨hfind, hmin⟩
    rw [h] at this
    cases this
  · intro h
    cases hocc : firstOcc l pat with
    | none => rfl
    | some n =>
      rcases (firstOcc_eq_some_iff hp l n).mp hocc with ⟨h1, -⟩
      exact absurd h1 (h n)

theorem lastOccAux_eq (pat l : List Char) (i : Nat) (acc : Option Nat) :
    lastOccAux pat l i acc = ((lastOcc l pat).map (· + i)).or acc := by
  induction l generalizing i acc with
  | nil => simp [lastOccAux, lastOcc]
  | cons c t ih =>
    have hstep : ∀ (i' : Nat) (acc' : Option Nat),
        lastOccAux pat (c :: t) i' acc'
          = lastOccAux pat t (i' + 1) (if pat.isPrefixOf (c :: t) then some i' else acc') :=
      fun _ _ => rfl
    rw [hstep, ih]
    have hr : lastOcc (c :: t) pat
        = ((lastOcc t pat).map (· + 1)).or (if pat.isPrefixOf (c :: t) then some 0 else none) := by
      rw [lastOcc, hstep, ih]
    rw [hr]
    cases lastOcc t pat with
    | some m =>
      simp
      omega
    | none =>
      by_cases h : pat.isPrefixOf (c :: t) <;> simp [h]

theorem lastOcc_cons (pat c t) :
    lastOcc (c :: t) pat =
      ((lastOcc t pat).map (· + 1)).or (if pat.isPrefixOf (c :: t) then some 0 else none) := by
  simp only [lastOcc, lastOccAux]
  rw [lastOccAux_eq]
  rfl

theorem lastOcc_eq_none_iff {pat : List Char} (hp : pat ≠ []) (l : List Char) :
    lastOcc l pat = none ↔ ∀ j, ¬ pat <+: l.drop j := by
  induction l with
  | nil =>
    constructor
    · intro _ j hj
      simp only [List.drop_nil] at hj
      exact absurd (List.prefix_nil.mp hj) hp
    · intro _
      rfl
  | cons c t ih =>
    rw [lastOcc_cons]
    constructor
    · intro h j
      have h1 : lastOcc t pat = none := by
        cases hocc : lastOcc t pat with
        | none => rfl
        | some m => rw [hocc] at h; simp at h
      have h2 : ¬ pat.isPrefixOf (c :: t) := by
        intro hpre
        rw [h1, hpre] at h
        simp at h
      cases j with
      | zero =>
        intro hj
        exact h2 (List.isPrefixOf_iff_prefix.mpr (by simpa using hj))
      | succ j' =>
        simpa using (ih.mp h1) j'
    · intro h
      have h1 : lastOcc t pat = none := ih.mpr (fun j => by simpa using h (j + 1))
      have h2 : ¬ pat.isPrefixOf (c :: t) := by
        intro hpre
        exact (h 0) (by simpa using List.isPrefixOf_iff_prefix.mp hpre)
      simp [h1, h2]

theorem lastOcc_eq_some_iff {pat : List Char} (hp : pat ≠ []) (l : List Char) (n : Nat) :
    lastOcc l pat = some n ↔
      (pat <+: l.drop n ∧ ∀ j, n < j → ¬ pat <+: l.drop j) := by
  induction l generalizing n with
  | nil =>
    simp only [lastOcc, lastOccAux, List.drop_nil]
    constructor
    · intro h
      cases h
    · rintro ⟨h1, -⟩
      exact absurd (List.prefix_nil.mp h1) hp
  | cons c t ih =>
    rw [lastOcc_cons]
    cases hocc : lastOcc t pat with
    | some m =>
      rcases (ih m).mp hocc with ⟨hm1, hm2⟩
      simp only [Option.map_some', Option.or_some]
      constructor
      · intro h
        have hn : n = m + 1 := by cases h; rfl
        subst hn
        refine ⟨by simpa using hm1, ?_⟩
        intro j hj
        cases j with
        | zero => omega
        | succ j' =>
          have : m < j' := by omega
          simpa using hm2 j' this
      · rintro ⟨h1, h2⟩
        cases n with
        | zero =>
          exact absurd (by simpa using hm1) (h2 (m + 1) (by omega))
        | succ k =>
          have hk : lastOcc t pat = some k := by
            refine (ih k).mpr ⟨by simpa using h1, ?_⟩
            intro j hj
            have := h2 (j + 1) (by omega)
            simpa using this
          rw [hocc] at hk
          cases hk
          rfl
    | none =>
      have hnone := (lastOcc_eq_none_iff hp t).mp hocc
      by_cases hpre : pat.isPrefixOf (c :: t)
      · simp only [Option.map_none', Option.none_or, hpre, if_pos]
        constructor
        · intro h
          have hn : n = 0 := by cases h; rfl
          subst hn
          refine ⟨by simpa using List.isPrefixOf_iff_prefix.mp hpre, ?_⟩
          intro j hj
          cases j with
          | zero => omega
          | succ j' => simpa using hnone j'
        · rintro ⟨h1, h2⟩
          cases n with
          | zero => rfl
          | succ k => exact absurd (by simpa using h1) (hnone k)
      · simp only [Option.map_none', Option.none_or, hpre, if_neg, Bool.false_eq_true, if_false]
        constructor
        · intro h
          cases h
        · rintro ⟨h1, h2⟩
          cases n with
          | zero =>
            exact absurd (List.isPrefixOf_iff_prefix.mpr (by simpa using h1)) hpre
          | succ k =>
            exact absurd (by simpa using h1) (hnone k)

theorem pyIn_eq_false_iff {pat : List Char} (hp : pat ≠ []) (l : List Char) :
    pyIn pat l = false ↔ ∀ j, ¬ pat <+: l.drop j := by
  have hiff : (firstOcc l pat).isSome = false ↔ firstOcc l pat = none := by
    cases firstOcc l pat <;> simp
  rw [pyIn, hiff, firstOcc_eq_none_iff hp]

theorem pyIn_eq_true_of_occ {pat l : List Char} {j : Nat} (h : pat <+: l.drop j) :
    pyIn pat l = true := by
  by_cases hp : pat = []
  · subst hp
    simp [pyIn, firstOcc, firstOccAux]
    cases l <;> simp [firstOccAux, List.isPrefixOf]
  · rw [pyIn, Option.isSome_iff_ne_none]
    intro hnone
    exact ((firstOcc_eq_none_iff hp l).mp hnone) j h

/-! ## Occurrence analysis of fence markers in wrapped documents -/
theorem fence3_ne_nil : fence3 ≠ [] := by decide

theorem head_ne_not_pre {p c : Char} {ps l : List Char} (hc : p ≠ c) :
    ¬ (p :: ps) <+: (c :: l) :=
  fun h => hc (List.cons_prefix_cons.mp h).1

theorem prefix_of_append_left {pat a b : List Char} (h : pat <+: a ++ b)
    (hl : pat.length ≤ a.length) : pat <+: a := by
  have htake := List.prefix_iff_eq_take.mp h
  rw [List.take_append_of_le_length hl] at htake
  exact htake ▸ List.take_prefix pat.length a

theorem fence3_get (i : Nat) (h : i < fence3.length) : fence3.get ⟨i, h⟩ = '\x60' := by
  have h3 : i < 3 := by simpa [fence3] using h
  interval_cases i <;> rfl

theorem fence3_no_cross {x z : List Char} {c : Char} (hc : c ≠ '\x60')
    (hx : x.length < fence3.length) : ¬ fence3 <+: (x ++ c :: z) := by
  intro h
  have hlt : x.length < (x ++ c :: z).length := by simp
  have hget := List.IsPrefix.get_eq h (show x.length < fence3.length from hx)
  rw [fence3_get x.length hx] at hget
  have hr : (x ++ c :: z).get ⟨x.length, hlt⟩ = c := by
    simp [List.get_eq_getElem, List.getElem_append_right]
  rw [hr] at hget
  exact hc hget.symm

theorem fence3_occ_at (d : List Char) :
    fence3 <+: (d ++ tailFence).drop (d.length + 1) := by
  have h1 : (d ++ tailFence).drop (d.length + 1) = tailFence.drop 1 := by
    exact List.drop_append 1
  rw [h1]
  decide

theorem fence3_occ_tail {d : List Char} (hd : pyIn fence3 d = false) :
    ∀ k, fence3 <+: (d ++ tailFence).drop k → k = d.length + 1 := by
  intro k hk
  have hdocc : ∀ j, ¬ fence3 <+: d.drop j := (pyIn_eq_false_iff fence3_ne_nil d).mp hd
  by_cases h1 : k ≤ d.length
  · rw [List.drop_append_of_le_length h1] at hk
    by_cases h2 : k + 3 ≤ d.length
    · have hln : fence3.length ≤ (d.drop k).length := by
        simp [fence3]
        omega
      exact absurd (prefix_of_append_left hk hln) (hdocc k)
    · have hlt : (d.drop k).length < fence3.length := by
        simp [fence3]
        omega
      have : tailFence = '\n' :: fence3 := rfl
      rw [this] at hk
      exact absurd hk (fence3_no_cross (by decide) hlt)
  · have hk' : fence3 <+: tailFence.drop (k - d.length) := by
      have hsplit : k = d.length + (k - d.length) := by omega
      rw [hsplit, List.drop_append (k - d.length)] at hk
      exact hk
    rcases Nat.lt_or_ge (k - d.length) 2 with hm | hm
    · have hm1 : k - d.length = 1 := by omega
      omega
    · have hlen := hk'.length_le
      have : tailFence.length = 4 := rfl
      simp [List.length_drop, this, fence3] at hlen
      omega

theorem firstOcc_fence_core {d : List Char} (hd : pyIn fence3 d = false) :
    firstOcc ('\n' :: (d ++ tailFence)) fence3 = some (d.length + 2) := by
  apply (firstOcc_eq_some_iff fence3_ne_nil _ _).mpr
  constructor
  · rw [List.drop_succ_cons]
    exact fence3_occ_at d
  · intro j hj
    cases j with
    | zero =>
      simp only [List.drop_zero]
      exact head_ne_not_pre (by decide)
    | succ j' =>
      rw [List.drop_succ_cons]
      intro h
      have := fence3_occ_tail hd j' h
      omega

/-! ## Strip and whole-text parse lemmas -/
theorem pyStrip_cons_of_ws {c : Char} (l : List Char) (hc : isStrWs c = true) :
    pyStrip (c :: l) = pyStrip l := by
  simp [pyStrip, List.dropWhile_cons, hc]

theorem pyStrip_concat_of_ws {c : Char} (l : List Char) (hc : isStrWs c = true) :
    pyStrip (l ++ [c]) = pyStrip l := by
  unfold pyStrip
  rw [List.dropWhile_append]
  cases h : (l.dropWhile isStrWs).isEmpty with
  | true =>
    rw [List.isEmpty_iff] at h
    simp [h, List.dropWhile_cons, hc]
  | false =>
    simp only [h, Bool.false_eq_true, if_false]
    rw [List.reverse_append]
    simp [List.dropWhile_cons, hc]

theorem pyStrip_wrap (d : List Char) :
    pyStrip ('\n' :: (d ++ ('\n' :: []))) = pyStrip d := by
  rw [pyStrip_cons_of_ws _ (by decide)]
  have : d ++ ('\n' :: []) = d ++ ['\n'] := rfl
  rw [this, pyStrip_concat_of_ws d (by decide)]

theorem json_loads_bt_head (rest : List Char) : json_loads ('\x60' :: rest) = none := rfl

/-! ## Behaviour of the extractor on fenced and prose-wrapped documents -/
theorem firstOcc_zero_of_pre {pat l : List Char} (hp : pat ≠ []) (h : pat <+: l) :
    firstOcc l pat = some 0 :=
  (firstOcc_eq_some_iff hp l 0).mpr ⟨by simpa using h, by omega⟩

theorem pyFindFrom_shape {h d : List Char} {m : Nat} (hm : h.length = m + 1)
    (hlast : h.drop m = ['\n']) (hfence : pyIn fence3 d = false) :
    pyFindFrom (h ++ (d ++ tailFence)) fence3 m = ((d.length + 2 + m : Nat) : Int) := by
  have hdrop : (h ++ (d ++ tailFence)).drop m = '\n' :: (d ++ tailFence) := by
    rw [List.drop_append_of_le_length (by omega), hlast]
    rfl
  rw [pyFindFrom, hdrop, firstOcc_fence_core hfence]

theorem pySlice_shape {h d : List Char} {m : Nat} (hm : h.length = m + 1)
    (hlast : h.drop m = ['\n']) :
    pySlice (h ++ (d ++ tailFence)) (m : Int) ((d.length + 2 + m : Nat) : Int)
      = '\n' :: (d ++ ['\n']) := by
  have hlen : (h ++ (d ++ tailFence)).length = d.length + m + 5 := by
    simp [hm, tailFence]
    omega
  have hidx1 : pyIdx (h ++ (d ++ tailFence)).length (m : Int) = m := by
    rw [pyIdx, if_neg (by omega), Int.toNat_natCast, hlen]
    omega
  have hidx2 : pyIdx (h ++ (d ++ tailFence)).length ((d.length + 2 + m : Nat) : Int)
      = d.length + 2 + m := by
    rw [pyIdx, if_neg (by omega), Int.toNat_natCast, hlen]
    omega
  rw [pySlice, hidx1, hidx2]
  have htake : (h ++ (d ++ tailFence)).take (d.length + 2 + m) = h ++ (d ++ ['\n']) := by
    have harith : d.length + 2 + m = h.length + (d.length + 1) := by omega
    rw [harith, List.take_append]
    congr 1
    have htf : (d ++ tailFence).take (d.length + 1) = d ++ tailFence.take 1 := by
      have : d.length + 1 = d.length + 1 := rfl
      rw [List.take_append 1]
    rw [htf]
    rfl
  rw [htake, List.drop_append_of_le_length (by omega), hlast]
  rfl

theorem extract_on_tagged_fence {d : List Char} {v : JsonVal}
    (hparse : json_loads d = some v) (hstrip : pyStrip d = d)
    (hfence : pyIn fence3 d = false) :
    extract_json_from_response (wrapTaggedFence d) = Except.ok v := by
  show extract_json_from_response (("```json\n").data ++ (d ++ tailFence)) = Except.ok v
  set T : List Char := ("```json\n").data ++ (d ++ tailFence) with hT
  have hwhole : json_loads T = none := json_loads_bt_head _
  have hocc0 : fenceJson <+: T := ⟨'\n' :: (d ++ tailFence), rfl⟩
  have hin : pyIn fenceJson T = true := pyIn_eq_true_of_occ (j := 0) (by simpa using hocc0)
  have hfind : pyFind T fenceJson = 0 := by
    rw [pyFind, firstOcc_zero_of_pre (by decide) hocc0]
    rfl
  have hlen8 : (("```json\n").data).length = 7 + 1 := rfl
  have hlast8 : (("```json\n").data).drop 7 = ['\n'] := rfl
  have hfrom : pyFindFrom T fence3 7 = ((d.length + 2 + 7 : Nat) : Int) := by
    rw [hT]
    exact pyFindFrom_shape (d := d) hlen8 hlast8 hfence
  have hslice : pySlice T ((7 : Nat) : Int) ((d.length + 2 + 7 : Nat) : Int)
      = '\n' :: (d ++ ['\n']) := by
    rw [hT]
    exact pySlice_shape (d := d) (h := ("```json\n").data) hlen8 hlast8
  have h7 : ((0 : Int) + 7).toNat = 7 := rfl
  have h7' : ((0 : Int) + 7) = ((7 : Nat) : Int) := rfl
  rw [extract_json_from_response, hwhole]
  split
  · next heq => cases heq
  · next _ =>
    rw [hin, if_pos rfl]
    show (match json_loads (pyStrip (pySlice T (pyFind T fenceJson + 7)
        (pyFindFrom T fence3 (pyFind T fenceJson + 7).toNat))) with
      | some w => Except.ok w
      | none => Except.error (PyJsonErr.jsonDecodeError (pyStrip (pySlice T
          (pyFind T fenceJson + 7) (pyFindFrom T fence3 (pyFind T fenceJson + 7).toNat)))))
      = Except.ok v
    rw [hfind, h7, h7', hfrom, hslice, pyStrip_wrap, hstrip, hparse]

theorem fence3_cons_eq : fence3 = '\x60' :: '\x60' :: '\x60' :: [] := rfl

theorem fenceJson_cons_eq :
    fenceJson = '\x60' :: '\x60' :: '\x60' :: 'j' :: 's' :: 'o' :: 'n' :: [] := rfl

/-- In a generic-fenced document the only fence occurrences are the two fences. -/
theorem fence3_occ_generic {d : List Char} (hfence : pyIn fence3 d = false) :
    ∀ j, fence3 <+: (("```\n").data ++ (d ++ tailFence)).drop j →
      j = 0 ∨ j = d.length + 5 := by
  intro j hj
  match j with
  | 0 => exact Or.inl rfl
  | 1 =>
    exfalso
    have he : ((("```\n").data ++ (d ++ tailFence)).drop 1)
        = '\x60' :: '\x60' :: '\n' :: (d ++ tailFence) := rfl
    rw [he, fence3_cons_eq] at hj
    rcases List.cons_prefix_cons.mp hj with ⟨-, hj2⟩
    rcases List.cons_prefix_cons.mp hj2 with ⟨-, hj3⟩
    exact absurd (List.cons_prefix_cons.mp hj3).1 (by decide)
  | 2 =>
    exfalso
    have he : ((("```\n").data ++ (d ++ tailFence)).drop 2)
        = '\x60' :: '\n' :: (d ++ tailFence) := rfl
    rw [he, fence3_cons_eq] at hj
    rcases List.cons_prefix_cons.mp hj with ⟨-, hj2⟩
    exact absurd (List.cons_prefix_cons.mp hj2).1 (by decide)
  | 3 =>
    exfalso
    have he : ((("```\n").data ++ (d ++ tailFence)).drop 3)
        = '\n' :: (d ++ tailFence) := rfl
    rw [he, fence3_cons_eq] at hj
    exact absurd (List.cons_prefix_cons.mp hj).1 (by decide)
  | (k + 4) =>
    right
    have he : ((("```\n").data ++ (d ++ tailFence)).drop (k + 4))
        = (d ++ tailFence).drop k := by
      have : k + 4 = (("```\n").data).length + k := by
        simp
        omega
      rw [this, List.drop_append]
    rw [he] at hj
    have := fence3_occ_tail hfence k hj
    omega

theorem pyIn_fenceJson_generic {d : List Char} (hfence : pyIn fence3 d = false) :
    pyIn fenceJson (("```\n").data ++ (d ++ tailFence)) = false := by
  apply (pyIn_eq_false_iff (by decide) _).mpr
  intro j hj
  have h3 : fence3 <+: ((("```\n").data ++ (d ++ tailFence)).drop j) :=
    List.IsPrefix.trans (by decide) hj
  rcases fence3_occ_generic hfence j h3 with h0 | h5
  · subst h0
    rw [List.drop_zero, fenceJson_cons_eq] at hj
    rcases List.cons_prefix_cons.mp hj with ⟨-, hj2⟩
    rcases List.cons_prefix_cons.mp hj2 with ⟨-, hj3⟩
    rcases List.cons_prefix_cons.mp hj3 with ⟨-, hj4⟩
    exact absurd (List.cons_prefix_cons.mp hj4).1 (by decide)
  · subst h5
    have he : ((("```\n").data ++ (d ++ tailFence)).drop (d.length + 5))
        = tailFence.drop 1 := by
      have harith : d.length + 5 = (("```\n").data).length + (d.length + 1) := by
        simp
        omega
      rw [harith, List.drop_append]
      have harith2 : d.length + 1 = d.length + 1 := rfl
      rw [List.drop_append 1]
    rw [he] at hj
    have := hj.length_le
    simp [fenceJson, tailFence] at this

theorem extract_on_generic_fence {d : List Char} {v : JsonVal}
    (hparse : json_loads d = some v) (hstrip : pyStrip d = d)
    (hfence : pyIn fence3 d = false) :
    extract_json_from_response (wrapGenericFence d) = Except.ok v := by
  show extract_json_from_response (("```\n").data ++ (d ++ tailFence)) = Except.ok v
  set T : List Char := ("```\n").data ++ (d ++ tailFence) with hT
  have hwhole : json_loads T = none := json_loads_bt_head _
  have hnoJson : pyIn fenceJson T = false := pyIn_fenceJson_generic hfence
  have hocc0 : fence3 <+: T := ⟨'\n' :: (d ++ tailFence), rfl⟩
  have hin : pyIn fence3 T = true := pyIn_eq_true_of_occ (j := 0) (by simpa using hocc0)
  have hfind : pyFind T fence3 = 0 := by
    rw [pyFind, firstOcc_zero_of_pre (by decide) hocc0]
    rfl
  have hlen4 : (("```\n").data).length = 3 + 1 := rfl
  have hlast4 : (("```\n").data).drop 3 = ['\n'] := rfl
  have hfrom : pyFindFrom T fence3 3 = ((d.length + 2 + 3 : Nat) : Int) := by
    rw [hT]
    exact pyFindFrom_shape (d := d) hlen4 hlast4 hfence
  have hslice : pySlice T ((3 : Nat) : Int) ((d.length + 2 + 3 : Nat) : Int)
      = '\n' :: (d ++ ['\n']) := by
    rw [hT]
    exact pySlice_shape (d := d) (h := ("```\n").data) hlen4 hlast4
  have h3 : ((0 : Int) + 3).toNat = 3 := rfl
  have h3' : ((0 : Int) + 3) = ((3 : Nat) : Int) := rfl
  rw [extract_json_from_response, hwhole]
  split
  · next heq => cases heq
  · next _ =>
    rw [hnoJson]
    rw [if_neg (by simp)]
    rw [hin, if_pos rfl]
    show (match json_loads (pyStrip (pySlice T (pyFind T fence3 + 3)
        (pyFindFrom T fence3 (pyFind T fence3 + 3).toNat))) with
      | some w => Except.ok w
      | none => Except.error (PyJsonErr.jsonDecodeError (pyStrip (pySlice T
          (pyFind T fence3 + 3) (pyFindFrom T fence3 (pyFind T fence3 + 3).toNat)))))
      = Except.ok v
    rw [hfind, h3, h3', hfrom, hslice, pyStrip_wrap, hstrip, hparse]

theorem single_pre_iff {c : Char} {l : List Char} : [c] <+: l ↔ l.head? = some c := by
  cases l with
  | nil => simp
  | cons x t =>
    constructor
    · intro h
      rcases List.cons_prefix_cons.mp h with ⟨h1, -⟩
      simp [h1]
    · intro h
      simp only [List.head?_cons, Option.some_inj] at h
      exact List.cons_prefix_cons.mpr ⟨h.symm, List.nil_prefix⟩

theorem pyFind_prose {p X : List Char} {c : Char} (hp : pyIn [c] p = false)
    (hX : X.head? = some c) : pyFind (p ++ X) [c] = (p.length : Int) := by
  have hocc : firstOcc (p ++ X) [c] = some p.length := by
    apply (firstOcc_eq_some_iff (by simp) _ _).mpr
    constructor
    · rw [List.drop_left p X]
      exact single_pre_iff.mpr hX
    · intro j hj hpre
      rw [List.drop_append_of_le_length (by omega)] at hpre
      have hne : p.drop j ≠ [] := by
        rw [Ne, List.drop_eq_nil_iff_le]
        omega
      rw [single_pre_iff, List.head?_append_of_ne_nil _ hne] at hpre
      exact ((pyIn_eq_false_iff (by simp) p).mp hp) j (single_pre_iff.mpr hpre)
  rw [pyFind, hocc]

theorem pyRfind_prose {p d2 q : List Char} {c : Char} (hq : pyIn [c] q = false) :
    pyRfind (p ++ ((d2 ++ [c]) ++ q)) [c] = ((p.length + d2.length : Nat) : Int) := by
  have hocc : lastOcc (p ++ ((d2 ++ [c]) ++ q)) [c] = some (p.length + d2.length) := by
    apply (lastOcc_eq_some_iff (by simp) _ _).mpr
    constructor
    · have he : (p ++ ((d2 ++ [c]) ++ q)).drop (p.length + d2.length) = c :: q := by
        rw [List.drop_append d2.length, List.append_assoc,
            List.drop_left d2 ([c] ++ q)]
        rfl
      rw [he]
      exact ⟨q, rfl⟩
    · intro j hj hpre
      have hsplit : j = p.length + ((d2.length + 1) + (j - p.length - d2.length - 1)) := by
        omega
      rw [hsplit, List.drop_append] at hpre
      have he2 : ((d2 ++ [c]) ++ q).drop ((d2.length + 1) + (j - p.length - d2.length - 1))
          = q.drop (j - p.length - d2.length - 1) := by
        have hlen : (d2 ++ [c]).length = d2.length + 1 := by simp
        rw [← hlen, List.drop_append]
      rw [he2] at hpre
      exact ((pyIn_eq_false_iff (by simp) q).mp hq) _ hpre
  rw [pyRfind, hocc]

theorem pySlice_prose (p d2 q : List Char) (c : Char) :
    pySlice (p ++ ((d2 ++ [c]) ++ q)) ((p.length : Nat) : Int)
      (((p.length + d2.length : Nat) : Int) + 1) = d2 ++ [c] := by
  have hb : ((p.length + d2.length : Nat) : Int) + 1
      = ((p.length + (d2.length + 1) : Nat) : Int) := by
    push_cast
    ring
  rw [hb, pySlice]
  have hlen : (p ++ ((d2 ++ [c]) ++ q)).length = p.length + (d2.length + 1) + q.length := by
    simp
    omega
  have hidx1 : pyIdx (p ++ ((d2 ++ [c]) ++ q)).length ((p.length : Nat) : Int) = p.length := by
    rw [pyIdx, if_neg (by omega), Int.toNat_natCast, hlen]
    omega
  have hidx2 : pyIdx (p ++ ((d2 ++ [c]) ++ q)).length
      ((p.length + (d2.length + 1) : Nat) : Int) = p.length + (d2.length + 1) := by
    rw [pyIdx, if_neg (by omega), Int.toNat_natCast, hlen]
    omega
  rw [hidx1, hidx2]
  have htake : (p ++ ((d2 ++ [c]) ++ q)).take (p.length + (d2.length + 1))
      = p ++ (d2 ++ [c]) := by
    rw [List.take_append (d2.length + 1)]
    congr 1
    have hlen2 : (d2 ++ [c]).length = d2.length + 1 := by simp
    rw [← hlen2, List.take_left (d2 ++ [c]) q]
  rw [htake, List.drop_left p (d2 ++ [c])]

theorem pyIn_fenceJson_of_fence3 {T : List Char} (h : pyIn fence3 T = false) :
    pyIn fenceJson T = false := by
  apply (pyIn_eq_false_iff (by decide) _).mpr
  intro j hj
  exact ((pyIn_eq_false_iff fence3_ne_nil _).mp h) j (List.IsPrefix.trans (by decide) hj)

theorem extract_on_prose {p d q : List Char} {v : JsonVal}
    (hparse : json_loads d = some v)
    (hd0 : d.head? = some '\x7b') (hdL : d.getLast? = some '\x7d')
    (hwhole : json_loads (p ++ (d ++ q)) = none)
    (hf3 : pyIn fence3 (p ++ (d ++ q)) = false)
    (hp : pyIn lbrace p = false) (hq : pyIn rbrace q = false) :
    extract_json_from_response (p ++ (d ++ q)) = Except.ok v := by
  rcases List.getLast?_eq_some_iff.mp hdL with ⟨d2, hd2⟩
  set T : List Char := p ++ (d ++ q) with hT
  have hfJson : pyIn fenceJson T = false := pyIn_fenceJson_of_fence3 hf3
  have hlb : lbrace = ['\x7b'] := rfl
  have hrb : rbrace = ['\x7d'] := rfl
  have hfind : pyFind T lbrace = (p.length : Int) := by
    rw [hT, hlb]
    exact pyFind_prose (by rw [← hlb]; exact hp)
      (by rw [List.head?_append_of_ne_nil _ (by intro hnil; rw [hnil] at hd0; cases hd0)]
          exact hd0)
  have hrfind : pyRfind T rbrace = ((p.length + d2.length : Nat) : Int) := by
    rw [hT, hrb, hd2]
    exact pyRfind_prose (by rw [← hrb]; exact hq)
  have hslice : pySlice T ((p.length : Nat) : Int) (((p.length + d2.length : Nat) : Int) + 1)
      = d := by
    rw [hT, hd2]
    exact pySlice_prose p d2 q '\x7d'
  rw [extract_json_from_response, hwhole]
  split
  · next heq => cases heq
  · next _ =>
    rw [hfJson, if_neg (by simp), hf3, if_neg (by simp)]
    show (if (pyFind T lbrace ≠ -1 ∧ pyRfind T rbrace + 1 > pyFind T lbrace) then
        (match json_loads (pySlice T (pyFind T lbrace) (pyRfind T rbrace + 1)) with
         | some w => Except.ok w
         | none => Except.error (PyJsonErr.jsonDecodeError
             (pySlice T (pyFind T lbrace) (pyRfind T rbrace + 1))))
      else Except.error (PyJsonErr.valueError noJsonMsg)) = Except.ok v
    rw [hfind, hrfind]
    rw [if_pos (by constructor <;> omega)]
    rw [hslice, hparse]

/-! ## Claim C1 -/
/-- C1 (counterexample): the round-trip claim fails as stated.  The document
`\x7b"a": "```"\x7d` is valid JSON, but wrapped in a json-tagged fence the
extractor cuts the block at the first closing fence marker, which here lies
inside the string literal, and raises a JSONDecodeError instead of returning
the parsed object. -/
theorem C1_extract_roundtrip_cex :
    json_loads (("\x7b\"a\": \"```\"\x7d").data)
        = some (JsonVal.obj [(("a").data, JsonVal.str (("```").data))])
    ∧ extract_json_from_response (wrapTaggedFence (("\x7b\"a\": \"```\"\x7d").data))
        = Except.error (PyJsonErr.jsonDecodeError (("\x7b\"a\": \"").data)) :=
  ⟨rfl, rfl⟩

/-- C1 (amended): for texts that are a valid JSON document given bare, wrapped
in a json-tagged fence, wrapped in a generic fence, or surrounded by stray
prose around a braced document, `extract_json_from_response` recovers exactly
the object obtained by parsing the document directly — provided the document
carries no fence marker and no surrounding whitespace, and in the prose case
the prose carries no fence marker, the preamble contains no opening brace, the
postamble contains no closing brace, and the prose makes the whole text
unparseable. -/
theorem C1_extract_roundtrip :
    (∀ (d : List Char) (v : JsonVal), json_loads d = some v →
        extract_json_from_response d = Except.ok v)
    ∧ (∀ (d : List Char) (v : JsonVal), json_loads d = some v → pyStrip d = d →
        pyIn fence3 d = false →
        extract_json_from_response (wrapTaggedFence d) = Except.ok v)
    ∧ (∀ (d : List Char) (v : JsonVal), json_loads d = some v → pyStrip d = d →
        pyIn fence3 d = false →
        extract_json_from_response (wrapGenericFence d) = Except.ok v)
    ∧ (∀ (p d q : List Char) (v : JsonVal), json_loads d = some v →
        d.head? = some '\x7b' → d.getLast? = some '\x7d' →
        json_loads (p ++ (d ++ q)) = none →
        pyIn fence3 (p ++ (d ++ q)) = false →
        pyIn lbrace p = false → pyIn rbrace q = false →
        extract_json_from_response (p ++ (d ++ q)) = Except.ok v) :=
  ⟨fun _ _ h => by rw [extract_json_from_response, h],
   fun _ _ h1 h2 h3 => extract_on_tagged_fence h1 h2 h3,
   fun _ _ h1 h2 h3 => extract_on_generic_fence h1 h2 h3,
   fun _ _ _ _ h1 h2 h3 h4 h5 h6 h7 => extract_on_prose h1 h2 h3 h4 h5 h6 h7⟩

/-- C1 (witness): the amended round-trip theorem applied to a concrete
document in all four presentations. -/
theorem C1_extract_roundtrip_witness :
    extract_json_from_response (("\x7b\"a\": 1\x7d").data)
        = Except.ok (JsonVal.obj [(("a").data, JsonVal.num 1)])
    ∧ extract_json_from_response (wrapTaggedFence (("\x7b\"a\": 1\x7d").data))
        = Except.ok (JsonVal.obj [(("a").data, JsonVal.num 1)])
    ∧ extract_json_from_response (wrapGenericFence (("\x7b\"a\": 1\x7d").data))
        = Except.ok (JsonVal.obj [(("a").data, JsonVal.num 1)])
    ∧ extract_json_from_response
        ((("Sure! ").data) ++ ((("\x7b\"a\": 1\x7d").data) ++ ((" thanks").data)))
        = Except.ok (JsonVal.obj [(("a").data, JsonVal.num 1)]) :=
  ⟨C1_extract_roundtrip.1 _ _ rfl,
   C1_extract_roundtrip.2.1 _ _ rfl rfl rfl,
   C1_extract_roundtrip.2.2.1 _ _ rfl rfl rfl,
   C1_extract_roundtrip.2.2.2 _ _ _ _ rfl rfl rfl rfl rfl rfl rfl⟩

theorem pyIn_append_mid (a x b : List Char) : pyIn x (a ++ (x ++ b)) = true :=
  pyIn_eq_true_of_occ (j := a.length) (by rw [List.drop_left]; exact ⟨b, rfl⟩)

theorem pyIn_msgVision_e1 (pm fm e1 e2 : List Char) :
    pyIn e1 (bothFailedMsgVision pm fm e1 e2) = true := by
  have he : bothFailedMsgVision pm fm e1 e2
      = ((("Both models failed.\nPrimary (").data ++ (pm ++ (("): ").data))) ++
        (e1 ++ ((("\nFallback (").data) ++ (fm ++ ((("): ").data) ++ e2))))) := by
    simp [bothFailedMsgVision]
  rw [he]
  exact pyIn_append_mid _ _ _

theorem pyIn_msgVision_e2 (pm fm e1 e2 : List Char) :
    pyIn e2 (bothFailedMsgVision pm fm e1 e2) = true := by
  have he : bothFailedMsgVision pm fm e1 e2
      = ((("Both models failed.\nPrimary (").data ++ (pm ++ ((("): ").data) ++
          (e1 ++ ((("\nFallback (").data) ++ (fm ++ (("): ").data))))))) ++ (e2 ++ [])) := by
    simp [bothFailedMsgVision]
  rw [he]
  exact pyIn_append_mid _ _ _

theorem pyIn_msgText_e1 (e1 e2 : List Char) :
    pyIn e1 (bothFailedMsgText e1 e2) = true :=
  pyIn_append_mid _ _ _

theorem pyIn_msgText_e2 (e1 e2 : List Char) :
    pyIn e2 (bothFailedMsgText e1 e2) = true := by
  have he : bothFailedMsgText e1 e2
      = ((("Both failed. Primary: ").data ++ (e1 ++ (". Fallback: ").data)) ++ (e2 ++ [])) := by
    simp [bothFailedMsgText]
  rw [he]
  exact pyIn_append_mid _ _ _

/-! ## Claims C2 and C3 -/
/-- C2 (counterexample): the claim fails for the Text kind.  With a failing
primary and a succeeding secondary, `generate_text_with_fallback` returns a
dict with success true, the secondary model recorded and fallback flagged, but
without any `primary_error` key. -/
theorem C2_fallback_success_cex :
    (generate_text_with_fallback (("m1").data) (("m2").data)
        (Except.error (("boom").data)) (some (Except.ok (("resp").data))) 1 2).success = true
    ∧ (generate_text_with_fallback (("m1").data) (("m2").data)
        (Except.error (("boom").data)) (some (Except.ok (("resp").data))) 1 2).fallback_used
      = some true
    ∧ (generate_text_with_fallback (("m1").data) (("m2").data)
        (Except.error (("boom").data)) (some (Except.ok (("resp").data))) 1 2).primary_error
      = none :=
  ⟨rfl, rfl, rfl⟩

/-- C2 (amended): when the primary call raises and the configured secondary
succeeds with reply `r`, both call kinds return success true, response `r`,
the secondary model name and fallback flagged; the Vision kind additionally
attaches the primary error as `primary_error`, while the Text kind omits that
key entirely. -/
theorem C2_fallback_success (pm fm e1 r : List Char) (t1 t2 : ℚ) :
    analyze_image_with_fallback pm fm (Except.error e1) (some (Except.ok r)) t1 t2
      = { success := true, response := some r, error := none, model_used := some fm,
          fallback_used := some true, primary_error := some e1, processing_time := t2 }
    ∧ generate_text_with_fallback pm fm (Except.error e1) (some (Except.ok r)) t1 t2
      = { success := true, response := some r, error := none, model_used := some fm,
          fallback_used := some true, primary_error := none, processing_time := t2 } :=
  ⟨rfl, rfl⟩

/-- C3 (counterexample): the claim fails for the Text kind.  When both text
calls raise, the returned dict has no `fallback_used` key at all, rather than
`fallback_used = true`. -/
theorem C3_both_fail_cex :
    (generate_text_with_fallback (("m1").data) (("m2").data)
        (Except.error (("e1").data)) (some (Except.error (("e2").data))) 1 2).success = false
    ∧ (generate_text_with_fallback (("m1").data) (("m2").data)
        (Except.error (("e1").data)) (some (Except.error (("e2").data))) 1 2).fallback_used
      = none :=
  ⟨rfl, rfl⟩

/-- C3 (amended): when the primary call raises `e1` and the configured
secondary raises `e2`, both call kinds return success false with an error
message containing both `e1` and `e2`; the Vision kind sets
`fallback_used = true`, while the Text kind omits the `fallback_used` key. -/
theorem C3_both_fail (pm fm e1 e2 : List Char) (t1 t2 : ℚ) :
    ((analyze_image_with_fallback pm fm (Except.error e1) (some (Except.error e2)) t1 t2).success
        = false
      ∧ (analyze_image_with_fallback pm fm (Except.error e1) (some (Except.error e2)) t1 t2).fallback_used
        = some true
      ∧ (analyze_image_with_fallback pm fm (Except.error e1) (some (Except.error e2)) t1 t2).error
        = some (bothFailedMsgVision pm fm e1 e2)
      ∧ pyIn e1 (bothFailedMsgVision pm fm e1 e2) = true
      ∧ pyIn e2 (bothFailedMsgVision pm fm e1 e2) = true)
    ∧ ((generate_text_with_fallback pm fm (Except.error e1) (some (Except.error e2)) t1 t2).success
        = false
      ∧ (generate_text_with_fallback pm fm (Except.error e1) (some (Except.error e2)) t1 t2).fallback_used
        = none
      ∧ (generate_text_with_fallback pm fm (Except.error e1) (some (Except.error e2)) t1 t2).error
        = some (bothFailedMsgText e1 e2)
      ∧ pyIn e1 (bothFailedMsgText e1 e2) = true
      ∧ pyIn e2 (bothFailedMsgText e1 e2) = true) :=
  ⟨⟨rfl, rfl, rfl, pyIn_msgVision_e1 pm fm e1 e2, pyIn_msgVision_e2 pm fm e1 e2⟩,
   ⟨rfl, rfl, rfl, pyIn_msgText_e1 e1 e2, pyIn_msgText_e2 e1 e2⟩⟩

/-! ## Claim C4 -/
theorem pySlice_isPart (l : List Char) (a b : Int) : pySlice l a b <:+: l :=
  List.IsInfix.trans (List.drop_suffix _ _).isInfix (List.take_prefix _ _).isInfix

theorem pyStrip_isPart (l : List Char) : pyStrip l <:+: l := by
  have h1 : l.dropWhile isStrWs <:+ l := List.dropWhile_suffix isStrWs
  have h2 : (l.dropWhile isStrWs).reverse.dropWhile isStrWs <:+
      (l.dropWhile isStrWs).reverse := List.dropWhile_suffix isStrWs
  have h3 : pyStrip l <+: l.dropWhile isStrWs := by
    rw [pyStrip, ← List.reverse_suffix]
    simpa using h2
  exact List.IsInfix.trans h3.isInfix h1.isInfix

/-- C4 (counterexample): on unrecoverable input the extractor does fail with a
ValueError, but its payload is the fixed message, which does not carry the
original raw text. -/
theorem C4_parse_error_cex :
    extract_json_from_response (("hello").data)
      = Except.error (PyJsonErr.valueError noJsonMsg)
    ∧ pyIn (("hello").data) noJsonMsg = false :=
  ⟨rfl, rfl⟩

/-- C4 (amended): whenever `extract_json_from_response` fails, the failure is
a ParseError in the ValueError family — either a JSONDecodeError whose
document is a substring of the input, or the fixed ValueError message — and
never an unrelated error kind; the original raw text, however, is not
attached to the error. -/
theorem C4_parse_error (s : List Char) (e : PyJsonErr)
    (h : extract_json_from_response s = Except.error e) :
    (∃ doc, e = PyJsonErr.jsonDecodeError doc ∧ doc <:+: s)
      ∨ e = PyJsonErr.valueError noJsonMsg := by
  rw [extract_json_from_response] at h
  split at h
  · cases h
  · split at h
    · replace h : (match json_loads (pyStrip (pySlice s (pyFind s fenceJson + 7)
          (pyFindFrom s fence3 (pyFind s fenceJson + 7).toNat))) with
        | some v => Except.ok v
        | none => Except.error (PyJsonErr.jsonDecodeError (pyStrip (pySlice s
            (pyFind s fenceJson + 7)
            (pyFindFrom s fence3 (pyFind s fenceJson + 7).toNat)))))
          = Except.error e := h
      split at h
      · cases h
      · left
        rw [Except.error.injEq] at h
        exact ⟨_, h.symm, (pyStrip_isPart _).trans (pySlice_isPart _ _ _)⟩
    · split at h
      · replace h : (match json_loads (pyStrip (pySlice s (pyFind s fence3 + 3)
            (pyFindFrom s fence3 (pyFind s fence3 + 3).toNat))) with
          | some v => Except.ok v
          | none => Except.error (PyJsonErr.jsonDecodeError (pyStrip (pySlice s
              (pyFind s fence3 + 3)
              (pyFindFrom s fence3 (pyFind s fence3 + 3).toNat)))))
            = Except.error e := h
        split at h
        · cases h
        · left
          rw [Except.error.injEq] at h
          exact ⟨_, h.symm, (pyStrip_isPart _).trans (pySlice_isPart _ _ _)⟩
      · replace h : (if (pyFind s lbrace ≠ -1 ∧ pyRfind s rbrace + 1 > pyFind s lbrace) then
            (match json_loads (pySlice s (pyFind s lbrace) (pyRfind s rbrace + 1)) with
             | some v => Except.ok v
             | none => Except.error (PyJsonErr.jsonDecodeError
                 (pySlice s (pyFind s lbrace) (pyRfind s rbrace + 1))))
          else Except.error (PyJsonErr.valueError noJsonMsg)) = Except.error e := h
        split at h
        · split at h
          · cases h
          · left
            rw [Except.error.injEq] at h
            exact ⟨_, h.symm, pySlice_isPart _ _ _⟩
        · right
          rw [Except.error.injEq] at h
          exact h.symm

/-- C4 (witness): the amended theorem applied to the concrete unrecoverable
input used in the counterexample. -/
theorem C4_parse_error_witness :
    (∃ doc, PyJsonErr.valueError noJsonMsg = PyJsonErr.jsonDecodeError doc
        ∧ doc <:+: (("hello").data))
      ∨ PyJsonErr.valueError noJsonMsg = PyJsonErr.valueError noJsonMsg :=
  C4_parse_error (("hello").data) _ rfl

/-! ## Stage computation lemmas -/
theorem except_bind_ok {α β : Type} (x : α) (f : α → Except (List Char) β) :
    (Except.ok x >>= f) = f x := rfl

theorem except_bind_err {α β : Type} (e : List Char) (f : α → Except (List Char) β) :
    (Except.error e >>= f : Except (List Char) β) = Except.error e := rfl

theorem extract_stage_ok {ec : PyCallResult} {resp : List Char} {mu : List Char} {fb : Bool}
    {bill_data : JsonVal}
    (h1 : ec.success = true) (h2 : ec.response = some resp)
    (h3 : ec.model_used = some mu) (h4 : ec.fallback_used = some fb)
    (h6 : extract_json_from_response resp = Except.ok bill_data) :
    extract_bill_data_with_vlm ec
      = Except.ok { success := true, data := some bill_data, error := none,
                    model_used := some mu, fallback_used := some fb,
                    processing_time := some ec.processing_time, raw_response := none } := by
  rw [extract_bill_data_with_vlm, if_neg (by rw [h1]; simp), h2, h3, h4]
  simp only [h6]

theorem summary_stage_ok {sc : PyCallResult} {resp2 : List Char} {bill_data : JsonVal}
    {summary_data : JsonVal} {li : JsonVal}
    (h0 : pyGet bill_data (("line_items").data) (JsonVal.arr []) = Except.ok li)
    (h1 : sc.success = true) (h2 : sc.response = some resp2)
    (h3 : extract_json_from_response resp2 = Except.ok summary_data) :
    generate_summary_with_vlm bill_data sc
      = Except.ok { success := true, data := some summary_data, error := none,
                    model_used := none, fallback_used := none,
                    processing_time := some sc.processing_time, raw_response := none } := by
  rw [generate_summary_with_vlm, h0]
  rw [except_bind_ok]
  rw [if_neg (by rw [h1]; simp), h2]
  simp only [h3]
  rfl

theorem process_bill_gate {minConf : ℚ} {ec : PyCallResult} {resp mu : List Char} {fb : Bool}
    {bill_data qa : JsonVal} {q : ℚ} (sc : PyCallResult) (ip : List Char) (dbId : Nat)
    (nd now : List Char)
    (h1 : ec.success = true) (h2 : ec.response = some resp)
    (h3 : ec.model_used = some mu) (h4 : ec.fallback_used = some fb)
    (h6 : extract_json_from_response resp = Except.ok bill_data)
    (h7 : pyGet bill_data (("quality_assessment").data) (JsonVal.obj []) = Except.ok qa)
    (h8 : pyGet qa (("confidence_score").data) (JsonVal.num 0)
        = Except.ok (JsonVal.num q)) :
    process_bill minConf (Except.ok ()) ec sc ip dbId nd now
      = if q < minConf then
          ({ success := false, data := none, bill_id := none,
             error := some (("Image quality too low. Please upload a clearer image.").data),
             quality_score := some (JsonVal.num q),
             stage := some (("quality_check").data),
             details := some qa }, [])
        else
          (match process_bill_after_gate bill_data sc
              { success := true, data := some bill_data, error := none,
                model_used := some mu, fallback_used := some fb,
                processing_time := some ec.processing_time, raw_response := none }
              ip dbId nd now with
           | Except.ok r => r
           | Except.error msg =>
               (failOutcome (some ((("Processing failed: ").data) ++ msg))
                 (("unknown").data), [])) := by
  rw [process_bill]
  simp only [except_bind_ok, extract_stage_ok h1 h2 h3 h4 h6, h7, h8, pyLtFloat]
  by_cases hq : q < minConf <;> simp [hq, pure, Except.pure]

/-- Once past the quality gate, no outcome of the rest of the run is ever
tagged `quality_check`, and none carries a quality score. -/
theorem after_gate_no_quality_reject (bill_data : JsonVal) (sc : PyCallResult)
    (er : StageResult) (ip : List Char) (dbId : Nat) (nd now : List Char) :
    (match process_bill_after_gate bill_data sc er ip dbId nd now with
     | Except.ok r => r
     | Except.error msg =>
         (failOutcome (some ((("Processing failed: ").data) ++ msg))
           (("unknown").data), [])).1.stage ≠ some (("quality_check").data)
    ∧ (match process_bill_after_gate bill_data sc er ip dbId nd now with
       | Except.ok r => r
       | Except.error msg =>
           (failOutcome (some ((("Processing failed: ").data) ++ msg))
             (("unknown").data), [])).1.quality_score = none := by
  cases hres : process_bill_after_gate bill_data sc er ip dbId nd now with
  | error msg => exact ⟨by simp [failOutcome], rfl⟩
  | ok r =>
    have hr : r.1.stage ≠ some (("quality_check").data) ∧ r.1.quality_score = none := by
      rw [process_bill_after_gate] at hres
      rcases hsr : generate_summary_with_vlm bill_data sc with msg | stg
      · rw [hsr, except_bind_err] at hres
        cases hres
      · rw [hsr, except_bind_ok] at hres
        by_cases hs : stg.success = false
        · rw [if_pos hs] at hres
          cases hres
          exact ⟨by simp [failOutcome], rfl⟩
        · rw [if_neg hs] at hres
          rcases hd : stg.data with _ | sd
          · rw [hd] at hres
            cases hres
          · rw [hd] at hres
            rcases hsv : save_to_database bill_data ip
                { model_used := er.model_used,
                  fallback_used := er.fallback_used.getD false,
                  processing_time := er.processing_time.getD 0
                    + stg.processing_time.getD 0,
                  bill_id := none } dbId nd with m2 | saved
            · simp only [hsv, except_bind_err] at hres
              cases hres
            · simp only [hsv, except_bind_ok] at hres
              rcases hcf : create_final_output bill_data sd
                  { model_used := er.model_used,
                    fallback_used := er.fallback_used.getD false,
                    processing_time := er.processing_time.getD 0
                      + stg.processing_time.getD 0,
                    bill_id := some saved.1 } now with m3 | fo
              · simp only [hcf] at hres
                cases hres
                exact ⟨by simp [failOutcome], rfl⟩
              · simp only [hcf] at hres
                cases hres
                exact ⟨by simp, rfl⟩
    simpa using hr

/-! ## Claim C5 -/
/-- C5: an extracted bill whose self-reported confidence equals
`MIN_CONFIDENCE_SCORE` exactly passes the quality gate (the run is never
rejected with stage `quality_check`, whatever the summary call does), while
any confidence strictly below the threshold is rejected with success false,
stage `quality_check`, the score returned as `quality_score` and the
offending assessment attached as details. -/
theorem C5_quality_gate {ec : PyCallResult} {resp mu : List Char} {fb : Bool}
    {bill_data qa : JsonVal}
    (sc : PyCallResult) (ip : List Char) (dbId : Nat) (nd now : List Char)
    (h1 : ec.success = true) (h2 : ec.response = some resp)
    (h3 : ec.model_used = some mu) (h4 : ec.fallback_used = some fb)
    (h6 : extract_json_from_response resp = Except.ok bill_data)
    (h7 : pyGet bill_data (("quality_assessment").data) (JsonVal.obj [])
        = Except.ok qa) :
    (pyGet qa (("confidence_score").data) (JsonVal.num 0)
        = Except.ok (JsonVal.num MIN_CONFIDENCE_SCORE) →
      (process_bill MIN_CONFIDENCE_SCORE (Except.ok ()) ec sc ip dbId nd now).1.stage
          ≠ some (("quality_check").data)
        ∧ (process_bill MIN_CONFIDENCE_SCORE (Except.ok ()) ec sc ip dbId nd now).1.quality_score
          = none)
    ∧ (∀ q : ℚ, pyGet qa (("confidence_score").data) (JsonVal.num 0)
          = Except.ok (JsonVal.num q) →
        q < MIN_CONFIDENCE_SCORE →
        process_bill MIN_CONFIDENCE_SCORE (Except.ok ()) ec sc ip dbId nd now
          = ({ success := false, data := none, bill_id := none,
               error := some (("Image quality too low. Please upload a clearer image.").data),
               quality_score := some (JsonVal.num q),
               stage := some (("quality_check").data),
               details := some qa }, [])) := by
  constructor
  · intro h8
    rw [process_bill_gate sc ip dbId nd now h1 h2 h3 h4 h6 h7 h8,
        if_neg (lt_irrefl MIN_CONFIDENCE_SCORE)]
    exact after_gate_no_quality_reject _ _ _ _ _ _ _
  · intro q h8 hlt
    rw [process_bill_gate sc ip dbId nd now h1 h2 h3 h4 h6 h7 h8, if_pos hlt]

/-- C5 (witness): the gate theorem applied to concrete runs with confidence
exactly 0.5 and with confidence 0.3. -/
theorem C5_quality_gate_witness :
    ((process_bill MIN_CONFIDENCE_SCORE (Except.ok ()) (sampleCall respHalf 1)
        (sampleCall respHalf 1) (("b.jpg").data) 1 ([]) ([])).1.stage
        ≠ some (("quality_check").data))
    ∧ process_bill MIN_CONFIDENCE_SCORE (Except.ok ()) (sampleCall respLow 1)
        (sampleCall respLow 1) (("b.jpg").data) 1 ([]) ([])
      = ({ success := false, data := none, bill_id := none,
           error := some (("Image quality too low. Please upload a clearer image.").data),
           quality_score := some (JsonVal.num (mkRat 3 10)),
           stage := some (("quality_check").data),
           details := some qaLow }, []) := by
  constructor
  · exact (C5_quality_gate (sampleCall respHalf 1) (("b.jpg").data) 1 ([]) ([])
      rfl rfl rfl rfl
      (rfl : extract_json_from_response respHalf = Except.ok billHalf)
      (rfl : pyGet billHalf (("quality_assessment").data) (JsonVal.obj [])
        = Except.ok qaHalf)).1 rfl |>.1
  · exact (C5_quality_gate (sampleCall respLow 1) (("b.jpg").data) 1 ([]) ([])
      rfl rfl rfl rfl
      (rfl : extract_json_from_response respLow = Except.ok billLow)
      (rfl : pyGet billLow (("quality_assessment").data) (JsonVal.obj [])
        = Except.ok qaLow)).2 (mkRat 3 10) rfl (by decide)

/-! ## Claim C8 -/
/-- C8: a run rejected at the quality gate returns success false with stage
`quality_check` and the quality score, and issues no database call at all:
neither `save_bill` nor `save_expenses` appears in the effect trace. -/
theorem C8_reject_no_persistence {minConf : ℚ} {ec : PyCallResult}
    {resp mu : List Char} {fb : Bool} {bill_data qa : JsonVal} {q : ℚ}
    (sc : PyCallResult) (ip : List Char) (dbId : Nat) (nd now : List Char)
    (h1 : ec.success = true) (h2 : ec.response = some resp)
    (h3 : ec.model_used = some mu) (h4 : ec.fallback_used = some fb)
    (h6 : extract_json_from_response resp = Except.ok bill_data)
    (h7 : pyGet bill_data (("quality_assessment").data) (JsonVal.obj [])
        = Except.ok qa)
    (h8 : pyGet qa (("confidence_score").data) (JsonVal.num 0)
        = Except.ok (JsonVal.num q))
    (hlt : q < minConf) :
    (process_bill minConf (Except.ok ()) ec sc ip dbId nd now).1.success = false
    ∧ (process_bill minConf (Except.ok ()) ec sc ip dbId nd now).1.stage
      = some (("quality_check").data)
    ∧ (process_bill minConf (Except.ok ()) ec sc ip dbId nd now).1.quality_score
      = some (JsonVal.num q)
    ∧ (process_bill minConf (Except.ok ()) ec sc ip dbId nd now).2 = [] := by
  rw [process_bill_gate sc ip dbId nd now h1 h2 h3 h4 h6 h7 h8, if_pos hlt]
  exact ⟨rfl, rfl, rfl, rfl⟩

/-- C8 (witness): the frame theorem applied to a concrete rejected run. -/
theorem C8_reject_no_persistence_witness :
    (process_bill MIN_CONFIDENCE_SCORE (Except.ok ()) (sampleCall respLow 1)
        (sampleCall respLow 1) (("b.jpg").data) 1 ([]) ([])).1.success = false
    ∧ (process_bill MIN_CONFIDENCE_SCORE (Except.ok ()) (sampleCall respLow 1)
        (sampleCall respLow 1) (("b.jpg").data) 1 ([]) ([])).1.stage
      = some (("quality_check").data)
    ∧ (process_bill MIN_CONFIDENCE_SCORE (Except.ok ()) (sampleCall respLow 1)
        (sampleCall respLow 1) (("b.jpg").data) 1 ([]) ([])).1.quality_score
      = some (JsonVal.num (mkRat 3 10))
    ∧ (process_bill MIN_CONFIDENCE_SCORE (Except.ok ()) (sampleCall respLow 1)
        (sampleCall respLow 1) (("b.jpg").data) 1 ([]) ([])).2 = [] :=
  C8_reject_no_persistence (sampleCall respLow 1) (("b.jpg").data) 1 ([]) ([])
    rfl rfl rfl rfl
    (rfl : extract_json_from_response respLow = Except.ok billLow)
    (rfl : pyGet billLow (("quality_assessment").data) (JsonVal.obj [])
      = Except.ok qaLow)
    (rfl : pyGet qaLow (("confidence_score").data) (JsonVal.num 0)
      = Except.ok (JsonVal.num (mkRat 3 10)))
    (by decide)

/-! ## Claim C10 -/
/-- C10: if the extraction response parses to a JSON object that lacks a
`quality_assessment` object, or whose quality assessment object lacks a
`confidence_score` field, the confidence defaults to 0.0, so for any positive
configured minimum the run is rejected at the quality gate with
`quality_score = 0.0` and nothing is persisted. -/
theorem C10_missing_confidence_rejected {minConf : ℚ} {ec : PyCallResult}
    {resp mu : List Char} {fb : Bool} {ms : List (List Char × JsonVal)}
    (sc : PyCallResult) (ip : List Char) (dbId : Nat) (nd now : List Char)
    (h1 : ec.success = true) (h2 : ec.response = some resp)
    (h3 : ec.model_used = some mu) (h4 : ec.fallback_used = some fb)
    (h6 : extract_json_from_response resp = Except.ok (JsonVal.obj ms))
    (hcase : dictLookupLast ms (("quality_assessment").data) = none
      ∨ ∃ qms, dictLookupLast ms (("quality_assessment").data)
            = some (JsonVal.obj qms)
          ∧ dictLookupLast qms (("confidence_score").data) = none)
    (hpos : 0 < minConf) :
    (process_bill minConf (Except.ok ()) ec sc ip dbId nd now).1.success = false
    ∧ (process_bill minConf (Except.ok ()) ec sc ip dbId nd now).1.stage
      = some (("quality_check").data)
    ∧ (process_bill minConf (Except.ok ()) ec sc ip dbId nd now).1.quality_score
      = some (JsonVal.num 0)
    ∧ (process_bill minConf (Except.ok ()) ec sc ip dbId nd now).2 = [] := by
  rcases hcase with hnone | ⟨qms, hsome, hnone2⟩
  · have h7 : pyGet (JsonVal.obj ms) (("quality_assessment").data) (JsonVal.obj [])
        = Except.ok (JsonVal.obj []) := by
      rw [pyGet, hnone]
      rfl
    have h8 : pyGet (JsonVal.obj []) (("confidence_score").data) (JsonVal.num 0)
        = Except.ok (JsonVal.num 0) := rfl
    rw [process_bill_gate sc ip dbId nd now h1 h2 h3 h4 h6 h7 h8, if_pos hpos]
    exact ⟨rfl, rfl, rfl, rfl⟩
  · have h7 : pyGet (JsonVal.obj ms) (("quality_assessment").data) (JsonVal.obj [])
        = Except.ok (JsonVal.obj qms) := by
      rw [pyGet, hsome]
      rfl
    have h8 : pyGet (JsonVal.obj qms) (("confidence_score").data) (JsonVal.num 0)
        = Except.ok (JsonVal.num 0) := by
      rw [pyGet, hnone2]
      rfl
    rw [process_bill_gate sc ip dbId nd now h1 h2 h3 h4 h6 h7 h8, if_pos hpos]
    exact ⟨rfl, rfl, rfl, rfl⟩

/-- C10 (witness): a concrete extraction response without any
`quality_assessment` object is rejected and nothing is persisted. -/
theorem C10_missing_confidence_rejected_witness :
    (process_bill MIN_CONFIDENCE_SCORE (Except.ok ()) (sampleCall respNoQa 1)
        (sampleCall respNoQa 1) (("b.jpg").data) 1 ([]) ([])).1.success = false
    ∧ (process_bill MIN_CONFIDENCE_SCORE (Except.ok ()) (sampleCall respNoQa 1)
        (sampleCall respNoQa 1) (("b.jpg").data) 1 ([]) ([])).1.stage
      = some (("quality_check").data)
    ∧ (process_bill MIN_CONFIDENCE_SCORE (Except.ok ()) (sampleCall respNoQa 1)
        (sampleCall respNoQa 1) (("b.jpg").data) 1 ([]) ([])).1.quality_score
      = some (JsonVal.num 0)
    ∧ (process_bill MIN_CONFIDENCE_SCORE (Except.ok ()) (sampleCall respNoQa 1)
        (sampleCall respNoQa 1) (("b.jpg").data) 1 ([]) ([])).2 = [] :=
  C10_missing_confidence_rejected (sampleCall respNoQa 1) (("b.jpg").data) 1 ([]) ([])
    rfl rfl rfl rfl
    (rfl : extract_json_from_response respNoQa
      = Except.ok (JsonVal.obj [((("merchant_name").data), JsonVal.str (("Acme").data))]))
    (Or.inl rfl)
    (by decide)

/-! ## Claim C6 -/
theorem create_final_output_fields {bd sd : JsonVal} {md : ProcessingMetadata}
    {now : List Char} {fo : FinalOutput}
    (h : create_final_output bd sd md now = Except.ok fo) :
    fo.metadata.model_used = md.model_used
    ∧ fo.metadata.fallback_used = md.fallback_used
    ∧ fo.metadata.processing_time_seconds = md.processing_time := by
  rw [create_final_output] at h
  rcases hv1 : pyGet bd (("merchant_name").data) (JsonVal.str (("Unknown").data))
    with m | v1
  · rw [hv1, except_bind_err] at h
    cases h
  · rw [hv1, except_bind_ok] at h
    rcases hv2 : pyGet bd (("bill_date").data) (JsonVal.str (("Unknown").data))
      with m | v2
    · rw [hv2, except_bind_err] at h
      cases h
    · rw [hv2, except_bind_ok] at h
      rcases hv3 : pyGet bd (("quality_assessment").data) (JsonVal.obj []) with m | v3
      · rw [hv3, except_bind_err] at h
        cases h
      · rw [hv3, except_bind_ok] at h
        rcases hv4 : pyGet v3 (("overall_quality").data) (JsonVal.str (("unknown").data))
          with m | v4
        · rw [hv4, except_bind_err] at h
          cases h
        · rw [hv4, except_bind_ok] at h
          rcases hv5 : pyGet v3 (("confidence_score").data) (JsonVal.num 0) with m | v5
          · rw [hv5, except_bind_err] at h
            cases h
          · rw [hv5, except_bind_ok] at h
            rcases hv6 : pyGet bd (("line_items").data) (JsonVal.arr []) with m | v6
            · rw [hv6, except_bind_err] at h
              cases h
            · rw [hv6, except_bind_ok] at h
              rcases hv7 : pyGet sd (("summary").data) (JsonVal.obj []) with m | v7
              · rw [hv7, except_bind_err] at h
                cases h
              · rw [hv7, except_bind_ok] at h
                rcases hv8 : pyGet sd (("insights").data) (JsonVal.obj []) with m | v8
                · rw [hv8, except_bind_err] at h
                  cases h
                · rw [hv8, except_bind_ok] at h
                  rcases hv9 : pyGet sd (("quality_metrics").data) (JsonVal.obj [])
                    with m | v9
                  · rw [hv9, except_bind_err] at h
                    cases h
                  · rw [hv9, except_bind_ok] at h
                    rcases hvm : (match v9 with
                      | JsonVal.obj ms =>
                          Except.ok (JsonVal.obj
                            (ms ++ [((("image_quality_assessment").data), v3)]))
                      | _ => (Except.error (("TypeError: mapping unpacking").data) :
                          Except (List Char) JsonVal)) with m | vm
                    · rw [hvm, except_bind_err] at h
                      cases h
                    · rw [hvm, except_bind_ok] at h
                      rcases hvl : pyLen v6 with m | vl
                      · rw [hvl, except_bind_err] at h
                        cases h
                      · rw [hvl, except_bind_ok] at h
                        cases h
                        exact ⟨rfl, rfl, rfl⟩

/-- C6 (counterexample): provenance is NOT merged across both calls.  In a
fully concrete successful run whose summary call used the fallback model, the
final record still reports `fallback_used = false`, because only the
extraction call's flag is recorded. -/
theorem C6_provenance_cex :
    (generate_text_with_fallback (("openrouter_gemini").data)
        (("groq_llama_scout").data) (Except.error (("rate limit").data))
        (some (Except.ok (("\x7b\x7d").data))) 1 2).fallback_used = some true
    ∧ Option.map (fun fo => fo.metadata.fallback_used)
        (process_bill MIN_CONFIDENCE_SCORE (Except.ok ())
          (analyze_image_with_fallback (("openrouter_gemini").data)
            (("groq_llama_scout").data) (Except.ok respGood) none 1 1)
          (generate_text_with_fallback (("openrouter_gemini").data)
            (("groq_llama_scout").data) (Except.error (("rate limit").data))
            (some (Except.ok (("\x7b\x7d").data))) 1 2)
          (("b.jpg").data) 1 ([]) ([])).1.data
      = some false :=
  ⟨rfl, rfl⟩

/-- C6 (amended): on a successful run the final record's provenance reflects
the extraction call only: `metadata.fallback_used` equals the extraction
call's fallback flag (whatever the summary call did), `metadata.model_used`
is the model that answered the extraction call, and
`metadata.processing_time_seconds` is the sum of the two calls' processing
times. -/
theorem C6_provenance {minConf : ℚ} {ec sc : PyCallResult}
    {resp resp2 mu : List Char} {fb : Bool}
    {bill_data qa summary_data li : JsonVal} {q : ℚ}
    {saved : Nat × List DbEffect} {fo : FinalOutput}
    (ip : List Char) (dbId : Nat) (nd now : List Char)
    (h1 : ec.success = true) (h2 : ec.response = some resp)
    (h3 : ec.model_used = some mu) (h4 : ec.fallback_used = some fb)
    (h6 : extract_json_from_response resp = Except.ok bill_data)
    (h7 : pyGet bill_data (("quality_assessment").data) (JsonVal.obj [])
        = Except.ok qa)
    (h8 : pyGet qa (("confidence_score").data) (JsonVal.num 0)
        = Except.ok (JsonVal.num q))
    (h9 : ¬ q < minConf)
    (h0 : pyGet bill_data (("line_items").data) (JsonVal.arr []) = Except.ok li)
    (h10 : sc.success = true) (h11 : sc.response = some resp2)
    (h12 : extract_json_from_response resp2 = Except.ok summary_data)
    (h13 : save_to_database bill_data ip
        { model_used := some mu, fallback_used := fb,
          processing_time := ec.processing_time + sc.processing_time,
          bill_id := none } dbId nd = Except.ok saved)
    (h14 : create_final_output bill_data summary_data
        { model_used := some mu, fallback_used := fb,
          processing_time := ec.processing_time + sc.processing_time,
          bill_id := some saved.1 } now = Except.ok fo) :
    process_bill minConf (Except.ok ()) ec sc ip dbId nd now
      = ({ success := true, data := some fo, bill_id := some saved.1,
           error := none, quality_score := none, stage := none,
           details := none }, saved.2)
    ∧ fo.metadata.fallback_used = fb
    ∧ fo.metadata.model_used = some mu
    ∧ fo.metadata.processing_time_seconds = ec.processing_time + sc.processing_time := by
  have hag : process_bill_after_gate bill_data sc
      { success := true, data := some bill_data, error := none,
        model_used := some mu, fallback_used := some fb,
        processing_time := some ec.processing_time, raw_response := none }
      ip dbId nd now
    = Except.ok ({ success := true, data := some fo, bill_id := some saved.1,
                   error := none, quality_score := none, stage := none,
                   details := none }, saved.2) := by
    rw [process_bill_after_gate, summary_stage_ok h0 h10 h11 h12, except_bind_ok,
        if_neg (by simp)]
    simp only [Option.getD_some, h13, except_bind_ok, h14]
    rfl
  refine ⟨?_, ?_, ?_, ?_⟩
  · rw [process_bill_gate sc ip dbId nd now h1 h2 h3 h4 h6 h7 h8, if_neg h9, hag]
  · exact (create_final_output_fields h14).2.1
  · exact (create_final_output_fields h14).1
  · exact (create_final_output_fields h14).2.2

/-- C6 (witness): the provenance theorem applied to a fully concrete
successful run. -/
theorem C6_provenance_witness :
    process_bill MIN_CONFIDENCE_SCORE (Except.ok ()) (sampleCall respGood 1)
        (sampleCall (("\x7b\x7d").data) 2) (("b.jpg").data) 1 ([]) ([])
      = ({ success := true, data := some foGood, bill_id := some savedGood.1,
           error := none, quality_score := none, stage := none,
           details := none }, savedGood.2)
    ∧ foGood.metadata.fallback_used = false
    ∧ foGood.metadata.model_used = some (("openrouter_gemini").data)
    ∧ foGood.metadata.processing_time_seconds
      = (sampleCall respGood 1).processing_time
        + (sampleCall (("\x7b\x7d").data) 2).processing_time :=
  C6_provenance (("b.jpg").data) 1 ([]) ([])
    rfl rfl rfl rfl
    (rfl : extract_json_from_response respGood = Except.ok billGood)
    (rfl : pyGet billGood (("quality_assessment").data) (JsonVal.obj [])
      = Except.ok qaGood)
    (rfl : pyGet qaGood (("confidence_score").data) (JsonVal.num 0)
      = Except.ok (JsonVal.num (mkRat 9 10)))
    (by decide)
    (rfl : pyGet billGood (("line_items").data) (JsonVal.arr [])
      = Except.ok (JsonVal.arr []))
    rfl rfl
    (rfl : extract_json_from_response (("\x7b\x7d").data) = Except.ok (JsonVal.obj []))
    rfl
    rfl

/-! ## Claim C7 -/
theorem create_final_output_expenses {bd sd : JsonVal} {md : ProcessingMetadata}
    {now : List Char} {fo : FinalOutput} {li : JsonVal}
    (hli : pyGet bd (("line_items").data) (JsonVal.arr []) = Except.ok li)
    (h : create_final_output bd sd md now = Except.ok fo) :
    fo.expenses = li := by
  rw [create_final_output] at h
  rcases hv1 : pyGet bd (("merchant_name").data) (JsonVal.str (("Unknown").data))
    with m | v1
  · rw [hv1, except_bind_err] at h
    cases h
  · rw [hv1, except_bind_ok] at h
    rcases hv2 : pyGet bd (("bill_date").data) (JsonVal.str (("Unknown").data))
      with m | v2
    · rw [hv2, except_bind_err] at h
      cases h
    · rw [hv2, except_bind_ok] at h
      rcases hv3 : pyGet bd (("quality_assessment").data) (JsonVal.obj []) with m | v3
      · rw [hv3, except_bind_err] at h
        cases h
      · rw [hv3, except_bind_ok] at h
        rcases hv4 : pyGet v3 (("overall_quality").data) (JsonVal.str (("unknown").data))
          with m | v4
        · rw [hv4, except_bind_err] at h
          cases h
        · rw [hv4, except_bind_ok] at h
          rcases hv5 : pyGet v3 (("confidence_score").data) (JsonVal.num 0) with m | v5
          · rw [hv5, except_bind_err] at h
            cases h
          · rw [hv5, except_bind_ok] at h
            rw [hli, except_bind_ok] at h
            rcases hv7 : pyGet sd (("summary").data) (JsonVal.obj []) with m | v7
            · rw [hv7, except_bind_err] at h
              cases h
            · rw [hv7, except_bind_ok] at h
              rcases hv8 : pyGet sd (("insights").data) (JsonVal.obj []) with m | v8
              · rw [hv8, except_bind_err] at h
                cases h
              · rw [hv8, except_bind_ok] at h
                rcases hv9 : pyGet sd (("quality_metrics").data) (JsonVal.obj [])
                  with m | v9
                · rw [hv9, except_bind_err] at h
                  cases h
                · rw [hv9, except_bind_ok] at h
                  rcases hvm : (match v9 with
                    | JsonVal.obj ms =>
                        Except.ok (JsonVal.obj
                          (ms ++ [((("image_quality_assessment").data), v3)]))
                    | _ => (Except.error (("TypeError: mapping unpacking").data) :
                        Except (List Char) JsonVal)) with m | vm
                  · rw [hvm, except_bind_err] at h
                    cases h
                  · rw [hvm, except_bind_ok] at h
                    rcases hvl : pyLen li with m | vl
                    · rw [hvl, except_bind_err] at h
                      cases h
                    · rw [hvl, except_bind_ok] at h
                      cases h
                      rfl

/-- C7 (counterexample): a line item whose category is present but outside
the closed category set is stored by `save_expenses` exactly as given — the
value `travel` is not normalized to `uncategorized`. -/
theorem C7_categories_cex :
    save_expenses_row (JsonVal.obj [((("category").data), JsonVal.str (("travel").data))])
      = Except.ok { item_description := JsonVal.str [], amount := JsonVal.num 0,
                    category := JsonVal.str (("travel").data),
                    confidence_score := JsonVal.num 0 }
    ∧ ¬ ("travel").data ∈ EXPENSE_CATEGORIES :=
  ⟨rfl, by decide⟩

/-- C7 (amended): a stored line item's category is the hard-coded default
`uncategorized` (a member of the closed category set) only when the item has
no category key at all; a present category value is persisted unchanged, even
when it lies outside the closed set, and the final output's expense list is
the raw `line_items` value passed through unmodified. -/
theorem C7_categories :
    (∀ (ms : List (List Char × JsonVal)) (cat : JsonVal) (row : ExpenseRow),
        dictLookupLast ms (("category").data) = some cat →
        save_expenses_row (JsonVal.obj ms) = Except.ok row →
        row.category = cat)
    ∧ (∀ (ms : List (List Char × JsonVal)) (row : ExpenseRow),
        dictLookupLast ms (("category").data) = none →
        save_expenses_row (JsonVal.obj ms) = Except.ok row →
        row.category = JsonVal.str (("uncategorized").data)
          ∧ ("uncategorized").data ∈ EXPENSE_CATEGORIES)
    ∧ (∀ (bd sd : JsonVal) (md : ProcessingMetadata) (now : List Char)
          (fo : FinalOutput) (li : JsonVal),
        pyGet bd (("line_items").data) (JsonVal.arr []) = Except.ok li →
        create_final_output bd sd md now = Except.ok fo →
        fo.expenses = li) := by
  refine ⟨?_, ?_, ?_⟩
  · intro ms cat row hcat hrow
    rw [save_expenses_row] at hrow
    simp only [pyGet, except_bind_ok, hcat, Option.getD_some] at hrow
    cases hrow
    rfl
  · intro ms row hcat hrow
    rw [save_expenses_row] at hrow
    simp only [pyGet, except_bind_ok, hcat, Option.getD_none] at hrow
    cases hrow
    exact ⟨rfl, by decide⟩
  · intro bd sd md now fo li hli h
    exact create_final_output_expenses hli h

/-- C7 (witness): the amended category theorem applied to one item with a
category and one without. -/
theorem C7_categories_witness :
    rowDining.category = JsonVal.str (("dining").data)
    ∧ rowDefault.category = JsonVal.str (("uncategorized").data)
    ∧ ("uncategorized").data ∈ EXPENSE_CATEGORIES := by
  refine ⟨?_, ?_, ?_⟩
  · exact C7_categories.1 [((("category").data), JsonVal.str (("dining").data))]
      (JsonVal.str (("dining").data)) rowDining rfl
      (rfl : save_expenses_row
        (JsonVal.obj [((("category").data), JsonVal.str (("dining").data))])
        = Except.ok rowDining)
  · exact (C7_categories.2.1 [] rowDefault rfl
      (rfl : save_expenses_row (JsonVal.obj []) = Except.ok rowDefault)).1
  · exact (C7_categories.2.1 [] rowDefault rfl
      (rfl : save_expenses_row (JsonVal.obj []) = Except.ok rowDefault)).2

/-- C9 (counterexample): with the fallback provider's credential absent from
the environment, constructing the ModelManager still succeeds — the missing
credential is swallowed and the manager simply has no fallback client, so a
missing credential is not always fatal at startup. -/
theorem C9_missing_credential_cex :
    envNoGroq (("GROQ_API_KEY").data) = none
    ∧ ModelManager_init envNoGroq DEFAULT_VISION_MODEL (some FALLBACK_VISION_MODEL)
      = Except.ok
          { primary_model_name := DEFAULT_VISION_MODEL,
            fallback_model_name := some FALLBACK_VISION_MODEL,
            primary :=
              { config :=
                  { provider := ("openrouter").data,
                    model := ("google/gemini-2.5-flash").data,
                    api_key_env := ("OPENROUTER_API_KEY").data,
                    base_url := ("https://openrouter.ai/api/v1").data,
                    supports_vision := true },
                api_key := ("sk-or-test").data },
            fallback := none } :=
  ⟨rfl, rfl⟩

/-- C9 (amended): constructing a provider client whose credential environment
variable is absent or empty fails fast with a configuration error naming the
variable, and a missing credential for the primary model is fatal to
ModelManager construction; but a missing credential for the fallback model is
caught, and the manager is constructed without a fallback client. -/
theorem C9_missing_credential :
    (∀ (env : List Char → Option (List Char)) (cfg : ProviderConfig),
        env cfg.api_key_env = none →
        initialize_client env cfg
          = Except.error ((("API key not found: ").data) ++ cfg.api_key_env))
    ∧ (∀ (env : List Char → Option (List Char)) (cfg : ProviderConfig),
        env cfg.api_key_env = some [] →
        initialize_client env cfg
          = Except.error ((("API key not found: ").data) ++ cfg.api_key_env))
    ∧ (∀ (env : List Char → Option (List Char)) (pm : List Char)
          (fm : Option (List Char)) (cfg : ProviderConfig) (e : List Char),
        MODEL_PROVIDERS pm = some cfg →
        initialize_client env cfg = Except.error e →
        ModelManager_init env pm fm = Except.error e)
    ∧ (∀ (env : List Char → Option (List Char)) (pm fm : List Char)
          (cfg fcfg : ProviderConfig) (pc : VLMClient) (e : List Char),
        MODEL_PROVIDERS pm = some cfg →
        initialize_client env cfg = Except.ok pc →
        MODEL_PROVIDERS fm = some fcfg →
        initialize_client env fcfg = Except.error e →
        ModelManager_init env pm (some fm)
          = Except.ok { primary_model_name := pm, fallback_model_name := some fm,
                        primary := pc, fallback := none }) := by
  refine ⟨?_, ?_, ?_, ?_⟩
  · intro env cfg h
    rw [initialize_client, h]
  · intro env cfg h
    rw [initialize_client, h]
    rfl
  · intro env pm fm cfg e hcfg hicl
    simp only [ModelManager_init.eq_def, hcfg, hicl]
  · intro env pm fm cfg fcfg pc e hcfg hicl hfcfg hficl
    simp only [ModelManager_init.eq_def, hcfg, hicl, hfcfg, hficl]

/-- C9 (witness): the amended theorem applied to the concrete registry
entries and the environment lacking the Groq key. -/
theorem C9_missing_credential_witness :
    initialize_client envNoGroq
        { provider := ("groq").data,
          model := ("meta-llama/llama-4-scout-17b-16e-instruct").data,
          api_key_env := ("GROQ_API_KEY").data,
          base_url := ("https://api.groq.com/openai/v1").data,
          supports_vision := true }
      = Except.error ((("API key not found: ").data) ++ (("GROQ_API_KEY").data))
    ∧ ModelManager_init envNoGroq DEFAULT_VISION_MODEL (some FALLBACK_VISION_MODEL)
      = Except.ok
          { primary_model_name := DEFAULT_VISION_MODEL,
            fallback_model_name := some FALLBACK_VISION_MODEL,
            primary :=
              { config :=
                  { provider := ("openrouter").data,
                    model := ("google/gemini-2.5-flash").data,
                    api_key_env := ("OPENROUTER_API_KEY").data,
                    base_url := ("https://openrouter.ai/api/v1").data,
                    supports_vision := true },
                api_key := ("sk-or-test").data },
            fallback := none } := by
  constructor
  · exact C9_missing_credential.1 envNoGroq
      { provider := ("groq").data,
        model := ("meta-llama/llama-4-scout-17b-16e-instruct").data,
        api_key_env := ("GROQ_API_KEY").data,
        base_url := ("https://api.groq.com/openai/v1").data,
        supports_vision := true } rfl
  · exact C9_missing_credential.2.2.2 envNoGroq DEFAULT_VISION_MODEL
      FALLBACK_VISION_MODEL
      { provider := ("openrouter").data, model := ("google/gemini-2.5-flash").data,
        api_key_env := ("OPENROUTER_API_KEY").data,
        base_url := ("https://openrouter.ai/api/v1").data, supports_vision := true }
      { provider := ("groq").data,
        model := ("meta-llama/llama-4-scout-17b-16e-instruct").data,
        api_key_env := ("GROQ_API_KEY").data,
        base_url := ("https://api.groq.com/openai/v1").data, supports_vision := true }
      { config :=
          { provider := ("openrouter").data,
            model := ("google/gemini-2.5-flash").data,
            api_key_env := ("OPENROUTER_API_KEY").data,
            base_url := ("https://openrouter.ai/api/v1").data,
            supports_vision := true },
        api_key := ("sk-or-test").data }
      ((("API key not found: ").data) ++ (("GROQ_API_KEY").data))
      rfl rfl rfl rfl
